import Mathlib

/-!
Verification of the daily-record aggregation and adherence-computation
subsystem of the myayu-mvp repository (src/lib/api/dailyEntry.ts).

Embedding conventions:
* ISO date strings (YYYY-MM-DD) are totally ordered lexicographically, which
  is order-isomorphic to day numbers; dates are embedded as `Int`.
  Nullable DATE columns become `Option Int`.
* Row ids (uuids) are embedded as `Nat`; inserts draw a fresh id from a
  counter carried in the database state.
* The hosted database is a record of row lists, one per table.  A select
  returns the filtered rows; fetch failures are injected through a list of
  failing table names (`fails`), mirroring the error objects the query
  client returns.  `handleSupabaseError` throws, so a detected error is an
  `Except.error` carrying the operation tag passed at the call site.
* Adherence statuses are stored in a nullable TEXT column, embedded as
  `Option String`.
* JavaScript number arithmetic on the adherence ratio is embedded exactly:
  `Math.round((taken / active) * 100)` is `adherenceRound taken active`,
  an executable integer form of `⌊100 * taken / active + 1/2⌋`; the claim
  theorems relate it to `round : ℚ → ℤ` on the real-valued ratio.
-/

deriving instance DecidableEq for Except

/-- Row of daily_entries (id, patient_id, date, pass-through fields). -/
structure DailyEntryRow where
  id : Nat
  patient_id : Nat
  date : Int
  energy_physical : Option Int := none
  energy_mental : Option Int := none
  energy_emotional : Option Int := none
  energy_drive : Option Int := none
  overall_mood : Option Int := none
  reflection : Option String := none
  cycle_day : Option Int := none
  deriving Repr, DecidableEq

/-- Projection of a per-day sub-record row (sleep block, food event, bowel
movement, vital reading, medication intake, symptom log, fluid totals,
regimen note): the aggregation logic only reads its daily_entry_id. -/
structure SubRecordRow where
  id : Nat
  daily_entry_id : Nat
  deriving Repr, DecidableEq

/-- Row of exercise_events (daily_entry_id, nullable duration_minutes). -/
structure ExerciseRow where
  daily_entry_id : Nat
  duration_minutes : Option Int := none
  deriving Repr, DecidableEq

/-- Row of early_morning_entries; created_at drives the order-desc-limit-1
fetch in the bundle assembler. -/
structure EarlyMorningRow where
  daily_entry_id : Nat
  created_at : Int := 0
  deriving Repr, DecidableEq

/-- Row of cycle_logs. -/
structure CycleLogRow where
  id : Nat
  daily_entry_id : Nat
  cycle_day : Option Int := none
  physical_symptom_keys : Option (List String) := none
  emotional_symptom_keys : Option (List String) := none
  bleeding_quantity : Option String := none
  blood_color : Option String := none
  blood_volume : Option String := none
  clots : Option Bool := none
  mucus : Option Bool := none
  deriving Repr, DecidableEq

/-- Row of cycle_comments. -/
structure CycleCommentRow where
  id : Nat
  cycle_log_id : Nat
  deriving Repr, DecidableEq

/-- Row of regimen_formulations or regimen_treatments: id, patient_id and
the nullable validity interval (start_date, stop_date are nullable DATE
columns in the schema). -/
structure RegimenItem where
  id : Nat
  patient_id : Nat
  start_date : Option Int := none
  stop_date : Option Int := none
  deriving Repr, DecidableEq

/-- Row of regimen_formulation_intakes (projection fetched by the range
functions: daily_entry_id, status, regimen_formulation_id). -/
structure FormIntakeRow where
  daily_entry_id : Nat
  status : Option String := none
  regimen_formulation_id : Nat
  deriving Repr, DecidableEq

/-- Row of regimen_treatment_completions (projection: daily_entry_id,
status, regimen_treatment_id). -/
structure TreatCompRow where
  daily_entry_id : Nat
  status : Option String := none
  regimen_treatment_id : Nat
  deriving Repr, DecidableEq

/-- Row of a patient-scoped saved-item lookup table. -/
structure SavedItemRow where
  id : Nat
  patient_id : Nat
  deriving Repr, DecidableEq

/-- The relational store: one list of rows per table, plus a counter that
supplies fresh ids for inserts. -/
structure DB where
  next_id : Nat := 0
  daily_entries : List DailyEntryRow := []
  sleep_blocks : List SubRecordRow := []
  early_morning_entries : List EarlyMorningRow := []
  daily_fluid_totals : List SubRecordRow := []
  food_events : List SubRecordRow := []
  bowel_movements : List SubRecordRow := []
  exercise_events : List ExerciseRow := []
  vital_readings : List SubRecordRow := []
  medication_intakes : List SubRecordRow := []
  symptom_logs : List SubRecordRow := []
  cycle_logs : List CycleLogRow := []
  cycle_comments : List CycleCommentRow := []
  regimen_formulations : List RegimenItem := []
  regimen_formulation_intakes : List FormIntakeRow := []
  regimen_treatments : List RegimenItem := []
  regimen_treatment_completions : List TreatCompRow := []
  regimen_notes : List SubRecordRow := []
  saved_foods : List SavedItemRow := []
  saved_exercises : List SavedItemRow := []
  saved_meds : List SavedItemRow := []
  saved_symptoms : List SavedItemRow := []
  deriving Repr, DecidableEq

/-- Insert into a list sorted descending by the key (helper of
sortDescBy). -/
def insortDescBy {α : Type} (key : α → Int) (x : α) : List α → List α
  | [] => [x]
  | y :: ys => if key y < key x then x :: y :: ys else y :: insortDescBy key x ys

/-- Insertion sort, descending by an integer key: the order-by-descending
clause of the range fetches. -/
def sortDescBy {α : Type} (key : α → Int) : List α → List α
  | [] => []
  | x :: xs => insortDescBy key x (sortDescBy key xs)

/-- Math.round((taken / active) * 100) of the adherence computation,
evaluated exactly on the integer counts: for active > 0 the source rounds
the nonnegative ratio times 100 to the nearest integer, halves up, which is
floor((200 * taken + active) / (2 * active)); the correspondence with
rounding the real-valued ratio is proved in the C1 theorem below. -/
def adherenceRound (taken active : Nat) : Int :=
  (((200 * taken + active) / (2 * active) : Nat) : Int)

/-- The active-window test the range functions apply to a regimen item, from
the filter lambda in getDailySummaryRange:
startOk is true when start_date is null or start_date is at most the date,
stopOk is true when stop_date is null or stop_date is at least the date. -/
def isActiveOn (date : Int) (f : RegimenItem) : Bool :=
  (match f.start_date with
    | none => true
    | some s => decide (s ≤ date)) &&
  (match f.stop_date with
    | none => true
    | some s => decide (date ≤ s))

/-- Output row of getDailySummaryRange. -/
structure DailySummary where
  date : Int
  energy_physical : Option Int
  energy_mental : Option Int
  energy_emotional : Option Int
  energy_drive : Option Int
  overall_mood : Option Int
  food_count : Nat
  bowel_movement_count : Nat
  exercise_minutes : Int
  formulation_adherence_percent : Int
  treatment_adherence_percent : Int
  has_cycle_log : Bool
  deriving Repr, DecidableEq

/-- Output row of getCycleRange. -/
structure CycleDaySummary where
  date : Int
  cycle_day : Option Int
  physical_symptom_keys : Option (List String)
  emotional_symptom_keys : Option (List String)
  bleeding_quantity : Option String
  blood_color : Option String
  blood_volume : Option String
  clots : Option Bool
  mucus : Option Bool
  energy_physical : Option Int
  energy_mental : Option Int
  energy_emotional : Option Int
  energy_drive : Option Int
  overall_mood : Option Int
  formulation_adherence_percent : Int
  treatment_adherence_percent : Int
  deriving Repr, DecidableEq

/-- The step-1 fetch shared verbatim by getDailySummaryRange and
getCycleRange: all daily_entries of the patient with date in the inclusive
range, ordered by date descending. -/
def rangeEntries (db : DB) (patientId : Nat) (fromDate toDate : Int) :
    List DailyEntryRow :=
  sortDescBy (fun e => e.date)
    (db.daily_entries.filter (fun e =>
      e.patient_id == patientId &&
      decide (fromDate ≤ e.date) && decide (e.date ≤ toDate)))

/-- The per-entry summary computation of getDailySummaryRange (the body of
the map over dailyEntries), taking the bulk-fetched row sets. -/
def summarizeDay (foodCounts bowelCounts : List SubRecordRow)
    (exercises : List ExerciseRow) (cycleLogs : List CycleLogRow)
    (formIntakes : List FormIntakeRow) (treatmentComps : List TreatCompRow)
    (formulations treatments : List RegimenItem)
    (entry : DailyEntryRow) : DailySummary :=
  let date := entry.date
  let foodCount := (foodCounts.filter (fun f => f.daily_entry_id == entry.id)).length
  let bowelCount := (bowelCounts.filter (fun b => b.daily_entry_id == entry.id)).length
  let exerciseMinutes := (exercises.filter (fun e => e.daily_entry_id == entry.id)).foldl
      (fun sum e => sum + e.duration_minutes.getD 0) 0
  let hasCycleLog := cycleLogs.any (fun c => c.daily_entry_id == entry.id)
  let activeFormulations := formulations.filter (fun f => isActiveOn date f)
  let activeFormulationIds := activeFormulations.map (fun f => f.id)
  let formIntakesForDay := formIntakes.filter (fun i => i.daily_entry_id == entry.id)
  let takenFormulations := (formIntakesForDay.filter (fun i =>
      activeFormulationIds.contains i.regimen_formulation_id &&
      (i.status == some "taken" || i.status == some "partial"))).length
  let formAdherence : Int :=
    if activeFormulations.length > 0 then
      adherenceRound takenFormulations activeFormulations.length
    else 0
  let activeTreatments := treatments.filter (fun t => isActiveOn date t)
  let activeTreatmentIds := activeTreatments.map (fun t => t.id)
  let treatmentCompsForDay := treatmentComps.filter (fun c => c.daily_entry_id == entry.id)
  let completedTreatments := (treatmentCompsForDay.filter (fun c =>
      activeTreatmentIds.contains c.regimen_treatment_id &&
      (c.status == some "completed" || c.status == some "partial"))).length
  let treatmentAdherence : Int :=
    if activeTreatments.length > 0 then
      adherenceRound completedTreatments activeTreatments.length
    else 0
  { date := entry.date
    energy_physical := entry.energy_physical
    energy_mental := entry.energy_mental
    energy_emotional := entry.energy_emotional
    energy_drive := entry.energy_drive
    overall_mood := entry.overall_mood
    food_count := foodCount
    bowel_movement_count := bowelCount
    exercise_minutes := exerciseMinutes
    formulation_adherence_percent := formAdherence
    treatment_adherence_percent := treatmentAdherence
    has_cycle_log := hasCycleLog }

/-- getDailySummaryRange: step-1 entry fetch with empty-range short-circuit,
step-2 bulk fetches keyed by the entry-id set, step-3 per-day summaries.
The second component records which tables were queried, in issue order. -/
def getDailySummaryRange (db : DB) (patientId : Nat) (fromDate toDate : Int) :
    List DailySummary × List String :=
  let dailyEntries := rangeEntries db patientId fromDate toDate
  if dailyEntries.isEmpty then
    ([], ["daily_entries"])
  else
    let entryIds := dailyEntries.map (fun e => e.id)
    let foodCounts := db.food_events.filter (fun f => entryIds.contains f.daily_entry_id)
    let bowelCounts := db.bowel_movements.filter (fun b => entryIds.contains b.daily_entry_id)
    let exercises := db.exercise_events.filter (fun e => entryIds.contains e.daily_entry_id)
    let cycleLogs := db.cycle_logs.filter (fun c => entryIds.contains c.daily_entry_id)
    let formIntakes := db.regimen_formulation_intakes.filter
        (fun i => entryIds.contains i.daily_entry_id)
    let treatmentComps := db.regimen_treatment_completions.filter
        (fun c => entryIds.contains c.daily_entry_id)
    let formulations := db.regimen_formulations.filter (fun f => f.patient_id == patientId)
    let treatments := db.regimen_treatments.filter (fun t => t.patient_id == patientId)
    (dailyEntries.map (summarizeDay foodCounts bowelCounts exercises cycleLogs
        formIntakes treatmentComps formulations treatments),
     ["daily_entries", "food_events", "bowel_movements", "exercise_events",
      "cycle_logs", "regimen_formulation_intakes", "regimen_treatment_completions",
      "regimen_formulations", "regimen_treatments"])

/-- The falsy-OR on optional numbers, as in the JavaScript expression
a || b: the right operand is taken when the left is absent, null, or 0. -/
def jsOrOpt (a b : Option Int) : Option Int :=
  match a with
  | none => b
  | some v => if v == 0 then b else some v

/-- The per-entry projection of getCycleRange (the body of the map over
dailyEntries).  The adherence computation is duplicated from the range
summarizer, as in the source. -/
def cycleSummarizeDay (cycleLogs : List CycleLogRow)
    (formIntakes : List FormIntakeRow) (treatmentComps : List TreatCompRow)
    (formulations treatments : List RegimenItem)
    (entry : DailyEntryRow) : CycleDaySummary :=
  let date := entry.date
  let cycleLog := cycleLogs.find? (fun c => c.daily_entry_id == entry.id)
  let activeFormulations := formulations.filter (fun f => isActiveOn date f)
  let activeFormulationIds := activeFormulations.map (fun f => f.id)
  let formIntakesForDay := formIntakes.filter (fun i => i.daily_entry_id == entry.id)
  let takenFormulations := (formIntakesForDay.filter (fun i =>
      activeFormulationIds.contains i.regimen_formulation_id &&
      (i.status == some "taken" || i.status == some "partial"))).length
  let formAdherence : Int :=
    if activeFormulations.length > 0 then
      adherenceRound takenFormulations activeFormulations.length
    else 0
  let activeTreatments := treatments.filter (fun t => isActiveOn date t)
  let activeTreatmentIds := activeTreatments.map (fun t => t.id)
  let treatmentCompsForDay := treatmentComps.filter (fun c => c.daily_entry_id == entry.id)
  let completedTreatments := (treatmentCompsForDay.filter (fun c =>
      activeTreatmentIds.contains c.regimen_treatment_id &&
      (c.status == some "completed" || c.status == some "partial"))).length
  let treatmentAdherence : Int :=
    if activeTreatments.length > 0 then
      adherenceRound completedTreatments activeTreatments.length
    else 0
  { date := entry.date
    cycle_day := jsOrOpt (match cycleLog with
      | some cl => cl.cycle_day
      | none => none) entry.cycle_day
    physical_symptom_keys := (match cycleLog with
      | some cl => cl.physical_symptom_keys
      | none => none)
    emotional_symptom_keys := (match cycleLog with
      | some cl => cl.emotional_symptom_keys
      | none => none)
    bleeding_quantity := (match cycleLog with
      | some cl => cl.bleeding_quantity
      | none => none)
    blood_color := (match cycleLog with
      | some cl => cl.blood_color
      | none => none)
    blood_volume := (match cycleLog with
      | some cl => cl.blood_volume
      | none => none)
    clots := (match cycleLog with
      | some cl => cl.clots
      | none => none)
    mucus := (match cycleLog with
      | some cl => cl.mucus
      | none => none)
    energy_physical := entry.energy_physical
    energy_mental := entry.energy_mental
    energy_emotional := entry.energy_emotional
    energy_drive := entry.energy_drive
    overall_mood := entry.overall_mood
    formulation_adherence_percent := formAdherence
    treatment_adherence_percent := treatmentAdherence }

/-- getCycleRange: same step-1 fetch and short-circuit as the range
summarizer, with a full cycle-log fetch and no food, bowel or exercise
fetches.  The second component records which tables were queried. -/
def getCycleRange (db : DB) (patientId : Nat) (fromDate toDate : Int) :
    List CycleDaySummary × List String :=
  let dailyEntries := rangeEntries db patientId fromDate toDate
  if dailyEntries.isEmpty then
    ([], ["daily_entries"])
  else
    let entryIds := dailyEntries.map (fun e => e.id)
    let cycleLogs := db.cycle_logs.filter (fun c => entryIds.contains c.daily_entry_id)
    let formIntakes := db.regimen_formulation_intakes.filter
        (fun i => entryIds.contains i.daily_entry_id)
    let treatmentComps := db.regimen_treatment_completions.filter
        (fun c => entryIds.contains c.daily_entry_id)
    let formulations := db.regimen_formulations.filter (fun f => f.patient_id == patientId)
    let treatments := db.regimen_treatments.filter (fun t => t.patient_id == patientId)
    (dailyEntries.map (cycleSummarizeDay cycleLogs formIntakes treatmentComps
        formulations treatments),
     ["daily_entries", "cycle_logs", "regimen_formulation_intakes",
      "regimen_treatment_completions", "regimen_formulations", "regimen_treatments"])

/-- Round half away from zero, the rounding mode the spec names for the
adherence percentage: halves move away from zero.  Stated from the claim
for comparison with the computation of the source. -/
def roundHalfAwayFromZero (q : ℚ) : ℤ :=
  if 0 ≤ q then ⌊q + 1 / 2⌋ else ⌈q - 1 / 2⌉

/-- The activity condition exactly as the claim words it, for comparison
with isActiveOn of the source: start_date ≤ D and (stop_date is null or
stop_date ≥ D).  A null start_date does not satisfy it. -/
def claimActiveOn (date : Int) (f : RegimenItem) : Bool :=
  (match f.start_date with
    | none => false
    | some s => decide (s ≤ date)) &&
  (match f.stop_date with
    | none => true
    | some s => decide (date ≤ s))

/-- getOrCreateDailyEntry: point lookup on (patient_id, date) via single();
a PGRST116 result (zero or several rows) falls through to an insert of a row
with only (patient_id, date) populated.  Modelled from the spec: the
handleSupabaseError helper lives in supabaseClient.ts, which is not among
the provided sources; per the spec it logs the named operation and
re-throws, so a detected failure becomes an error carrying the call-site
tag.  The insert honours the UNIQUE(patient_id, date) constraint of the
schema: a duplicate key makes the insert fail.  The first component is the
result, the second lists the statements issued in order. -/
def getOrCreateDailyEntry (db : DB) (fails : List String)
    (patientId : Nat) (date : Int) :
    Except String (DailyEntryRow × DB) × List String :=
  if fails.contains "daily_entries" then
    (.error "getOrCreateDailyEntry - fetch", ["daily_entries"])
  else
    match db.daily_entries.filter (fun e => e.patient_id == patientId && e.date == date) with
    | [e] => (.ok (e, db), ["daily_entries"])
    | _ =>
      if fails.contains "daily_entries.insert" ||
          db.daily_entries.any (fun e => e.patient_id == patientId && e.date == date) then
        (.error "getOrCreateDailyEntry - insert", ["daily_entries", "daily_entries.insert"])
      else
        let newEntry : DailyEntryRow := { id := db.next_id, patient_id := patientId, date := date }
        (.ok (newEntry,
          { db with
            daily_entries := db.daily_entries ++ [newEntry]
            next_id := db.next_id + 1 }),
         ["daily_entries", "daily_entries.insert"])

/-- A multi-row select: returns the rows, or an error result when the table
fetch fails. -/
def sel {α : Type} (fails : List String) (table : String) (rows : List α) :
    Option (List α) :=
  if fails.contains table then none else some rows

/-- A maybeSingle select: at most one row expected; several matching rows,
like a failing fetch, produce an error result. -/
def selMaybe {α : Type} (fails : List String) (table : String) (rows : List α) :
    Option (Option α) :=
  if fails.contains table then none
  else
    match rows with
    | [] => some none
    | [x] => some (some x)
    | _ => none

/-- The order-by-created_at-descending, limit-1, maybeSingle select used for
early_morning_entries. -/
def selFirstDesc (fails : List String) (table : String)
    (rows : List EarlyMorningRow) : Option (Option EarlyMorningRow) :=
  if fails.contains table then none
  else some ((sortDescBy (fun r => r.created_at) rows).head?)

/-- The single-day aggregate assembled by getDailyEntryBundle. -/
structure DailyEntryBundle where
  dailyEntry : DailyEntryRow
  sleepBlocks : List SubRecordRow
  earlyMorning : Option EarlyMorningRow
  fluidTotals : Option SubRecordRow
  foodEvents : List SubRecordRow
  bowelMovements : List SubRecordRow
  exerciseEvents : List ExerciseRow
  vitalReadings : List SubRecordRow
  medicationIntakes : List SubRecordRow
  symptomLogs : List SubRecordRow
  cycleLog : Option CycleLogRow
  cycleComments : List CycleCommentRow
  regimenFormulations : List RegimenItem
  formulationIntakes : List FormIntakeRow
  regimenTreatments : List RegimenItem
  treatmentCompletions : List TreatCompRow
  regimenNotes : Option SubRecordRow
  savedFoods : List SavedItemRow
  savedExercises : List SavedItemRow
  savedMeds : List SavedItemRow
  savedSymptoms : List SavedItemRow
  deriving Repr, DecidableEq

/-- getDailyEntryBundle: resolves the anchor entry, issues all per-table
fetches of the Promise.all block, then checks their error fields in source
order and throws the first failure with its operation tag.  The
cycle_comments fetch inside the Promise.all block queries by the daily
entry id, its result is discarded, and -- exactly as in the source -- its
error field is never checked.  Cycle comments are then re-fetched keyed by
the cycle log id when a cycle log exists.  The second component lists the
fetches issued, in order. -/
def getDailyEntryBundle (db : DB) (fails : List String)
    (patientId : Nat) (date : Int) :
    Except String (DailyEntryBundle × DB) × List String :=
  match getOrCreateDailyEntry db fails patientId date with
  | (.error e, tr) => (.error e, tr)
  | (.ok (dailyEntry, db1), tr) =>
    let trace := tr ++
      ["sleep_blocks", "early_morning_entries", "daily_fluid_totals",
       "food_events", "bowel_movements", "exercise_events", "vital_readings",
       "medication_intakes", "symptom_logs", "cycle_logs", "cycle_comments",
       "regimen_formulations", "regimen_formulation_intakes",
       "regimen_treatments", "regimen_treatment_completions", "regimen_notes",
       "saved_foods", "saved_exercises", "saved_meds", "saved_symptoms"]
    let sleepBlocksRes := sel fails "sleep_blocks"
        (db1.sleep_blocks.filter (fun r => r.daily_entry_id == dailyEntry.id))
    let earlyMorningRes := selFirstDesc fails "early_morning_entries"
        (db1.early_morning_entries.filter (fun r => r.daily_entry_id == dailyEntry.id))
    let fluidTotalsRes := selMaybe fails "daily_fluid_totals"
        (db1.daily_fluid_totals.filter (fun r => r.daily_entry_id == dailyEntry.id))
    let foodEventsRes := sel fails "food_events"
        (db1.food_events.filter (fun r => r.daily_entry_id == dailyEntry.id))
    let bowelMovementsRes := sel fails "bowel_movements"
        (db1.bowel_movements.filter (fun r => r.daily_entry_id == dailyEntry.id))
    let exerciseEventsRes := sel fails "exercise_events"
        (db1.exercise_events.filter (fun r => r.daily_entry_id == dailyEntry.id))
    let vitalReadingsRes := sel fails "vital_readings"
        (db1.vital_readings.filter (fun r => r.daily_entry_id == dailyEntry.id))
    let medicationIntakesRes := sel fails "medication_intakes"
        (db1.medication_intakes.filter (fun r => r.daily_entry_id == dailyEntry.id))
    let symptomLogsRes := sel fails "symptom_logs"
        (db1.symptom_logs.filter (fun r => r.daily_entry_id == dailyEntry.id))
    let cycleLogRes := selMaybe fails "cycle_logs"
        (db1.cycle_logs.filter (fun r => r.daily_entry_id == dailyEntry.id))
    let cycleCommentsPreRes := sel fails "cycle_comments"
        (db1.cycle_comments.filter (fun c => c.cycle_log_id == dailyEntry.id))
    let regimenFormulationsRes := sel fails "regimen_formulations"
        (db1.regimen_formulations.filter (fun r => r.patient_id == patientId))
    let formulationIntakesRes := sel fails "regimen_formulation_intakes"
        (db1.regimen_formulation_intakes.filter (fun r => r.daily_entry_id == dailyEntry.id))
    let regimenTreatmentsRes := sel fails "regimen_treatments"
        (db1.regimen_treatments.filter (fun r => r.patient_id == patientId))
    let treatmentCompletionsRes := sel fails "regimen_treatment_completions"
        (db1.regimen_treatment_completions.filter (fun r => r.daily_entry_id == dailyEntry.id))
    let regimenNotesRes := selMaybe fails "regimen_notes"
        (db1.regimen_notes.filter (fun r => r.daily_entry_id == dailyEntry.id))
    let savedFoodsRes := sel fails "saved_foods"
        (db1.saved_foods.filter (fun r => r.patient_id == patientId))
    let savedExercisesRes := sel fails "saved_exercises"
        (db1.saved_exercises.filter (fun r => r.patient_id == patientId))
    let savedMedsRes := sel fails "saved_meds"
        (db1.saved_meds.filter (fun r => r.patient_id == patientId))
    let savedSymptomsRes := sel fails "saved_symptoms"
        (db1.saved_symptoms.filter (fun r => r.patient_id == patientId))
    let checkList : List (Bool × String) :=
      [(sleepBlocksRes.isNone, "getDailyEntryBundle - sleep_blocks"),
       (earlyMorningRes.isNone, "getDailyEntryBundle - early_morning"),
       (fluidTotalsRes.isNone, "getDailyEntryBundle - fluid_totals"),
       (foodEventsRes.isNone, "getDailyEntryBundle - food_events"),
       (bowelMovementsRes.isNone, "getDailyEntryBundle - bowel_movements"),
       (exerciseEventsRes.isNone, "getDailyEntryBundle - exercise_events"),
       (vitalReadingsRes.isNone, "getDailyEntryBundle - vital_readings"),
       (medicationIntakesRes.isNone, "getDailyEntryBundle - medication_intakes"),
       (symptomLogsRes.isNone, "getDailyEntryBundle - symptom_logs"),
       (cycleLogRes.isNone, "getDailyEntryBundle - cycle_log"),
       (regimenFormulationsRes.isNone, "getDailyEntryBundle - regimen_formulations"),
       (formulationIntakesRes.isNone, "getDailyEntryBundle - formulation_intakes"),
       (regimenTreatmentsRes.isNone, "getDailyEntryBundle - regimen_treatments"),
       (treatmentCompletionsRes.isNone, "getDailyEntryBundle - treatment_completions"),
       (regimenNotesRes.isNone, "getDailyEntryBundle - regimen_notes"),
       (savedFoodsRes.isNone, "getDailyEntryBundle - saved_foods"),
       (savedExercisesRes.isNone, "getDailyEntryBundle - saved_exercises"),
       (savedMedsRes.isNone, "getDailyEntryBundle - saved_meds"),
       (savedSymptomsRes.isNone, "getDailyEntryBundle - saved_symptoms")]
    match (checkList.find? (fun c => c.1)).map (fun c => c.2) with
    | some tag => (.error tag, trace)
    | none =>
      match cycleLogRes with
      | some (some cl) =>
        match sel fails "cycle_comments"
            (db1.cycle_comments.filter (fun c => c.cycle_log_id == cl.id)) with
        | none => (.error "getDailyEntryBundle - cycle_comments",
                   trace ++ ["cycle_comments"])
        | some comments =>
          (.ok ({ dailyEntry := dailyEntry
                  sleepBlocks := sleepBlocksRes.getD []
                  earlyMorning := (earlyMorningRes.getD none)
                  fluidTotals := (fluidTotalsRes.getD none)
                  foodEvents := foodEventsRes.getD []
                  bowelMovements := bowelMovementsRes.getD []
                  exerciseEvents := exerciseEventsRes.getD []
                  vitalReadings := vitalReadingsRes.getD []
                  medicationIntakes := medicationIntakesRes.getD []
                  symptomLogs := symptomLogsRes.getD []
                  cycleLog := some cl
                  cycleComments := comments
                  regimenFormulations := regimenFormulationsRes.getD []
                  formulationIntakes := formulationIntakesRes.getD []
                  regimenTreatments := regimenTreatmentsRes.getD []
                  treatmentCompletions := treatmentCompletionsRes.getD []
                  regimenNotes := (regimenNotesRes.getD none)
                  savedFoods := savedFoodsRes.getD []
                  savedExercises := savedExercisesRes.getD []
                  savedMeds := savedMedsRes.getD []
                  savedSymptoms := savedSymptomsRes.getD [] }, db1),
           trace ++ ["cycle_comments"])
      | _ =>
        (.ok ({ dailyEntry := dailyEntry
                sleepBlocks := sleepBlocksRes.getD []
                earlyMorning := (earlyMorningRes.getD none)
                fluidTotals := (fluidTotalsRes.getD none)
                foodEvents := foodEventsRes.getD []
                bowelMovements := bowelMovementsRes.getD []
                exerciseEvents := exerciseEventsRes.getD []
                vitalReadings := vitalReadingsRes.getD []
                medicationIntakes := medicationIntakesRes.getD []
                symptomLogs := symptomLogsRes.getD []
                cycleLog := none
                cycleComments := []
                regimenFormulations := regimenFormulationsRes.getD []
                formulationIntakes := formulationIntakesRes.getD []
                regimenTreatments := regimenTreatmentsRes.getD []
                treatmentCompletions := treatmentCompletionsRes.getD []
                regimenNotes := (regimenNotesRes.getD none)
                savedFoods := savedFoodsRes.getD []
                savedExercises := savedExercisesRes.getD []
                savedMeds := savedMedsRes.getD []
                savedSymptoms := savedSymptomsRes.getD [] }, db1),
         trace)

/-- Witness database for the adherence formula: one entry, three
formulations all active with one taken intake (33 percent), three
treatments all active with one completed and one partial completion
(67 percent). -/
def dbC1 : DB := {
  daily_entries := [{ id := 10, patient_id := 1, date := 0 }]
  regimen_formulations := [⟨1, 1, none, none⟩, ⟨2, 1, none, none⟩, ⟨3, 1, none, none⟩]
  regimen_formulation_intakes := [⟨10, some "taken", 1⟩]
  regimen_treatments := [⟨4, 1, none, none⟩, ⟨5, 1, none, none⟩, ⟨6, 1, none, none⟩]
  regimen_treatment_completions := [⟨10, some "completed", 4⟩, ⟨10, some "partial", 5⟩]
}

/-- The single daily entry of dbC1. -/
def entryC1 : DailyEntryRow := { id := 10, patient_id := 1, date := 0 }

/-- The summary getDailySummaryRange produces for dbC1. -/
def sC1 : DailySummary := {
  date := 0, energy_physical := none, energy_mental := none,
  energy_emotional := none, energy_drive := none, overall_mood := none,
  food_count := 0, bowel_movement_count := 0, exercise_minutes := 0,
  formulation_adherence_percent := 33, treatment_adherence_percent := 67,
  has_cycle_log := false }

/-- Witness database for the zero-active invariant: one entry, no regimen
definitions at all. -/
def dbC3 : DB := {
  daily_entries := [{ id := 10, patient_id := 1, date := 0 }]
}

/-- Database showing the adherence percentage is not bounded by 100: one
active formulation with two taken intake rows on the same day, one active
treatment with two completed rows. -/
def dbC10 : DB := {
  daily_entries := [{ id := 10, patient_id := 1, date := 0 }]
  regimen_formulations := [⟨1, 1, none, none⟩]
  regimen_formulation_intakes := [⟨10, some "taken", 1⟩, ⟨10, some "taken", 1⟩]
  regimen_treatments := [⟨7, 1, none, none⟩]
  regimen_treatment_completions := [⟨10, some "completed", 7⟩, ⟨10, some "completed", 7⟩]
}

/-- The summary getDailySummaryRange produces for dbC3. -/
def sC3 : DailySummary := {
  date := 0, energy_physical := none, energy_mental := none,
  energy_emotional := none, energy_drive := none, overall_mood := none,
  food_count := 0, bowel_movement_count := 0, exercise_minutes := 0,
  formulation_adherence_percent := 0, treatment_adherence_percent := 0,
  has_cycle_log := false }

/-- The projection getCycleRange produces for dbC3. -/
def cC3 : CycleDaySummary := {
  date := 0, cycle_day := none, physical_symptom_keys := none,
  emotional_symptom_keys := none, bleeding_quantity := none,
  blood_color := none, blood_volume := none, clots := none, mucus := none,
  energy_physical := none, energy_mental := none, energy_emotional := none,
  energy_drive := none, overall_mood := none,
  formulation_adherence_percent := 0, treatment_adherence_percent := 0 }

/-- A formulation with a null start_date: the source counts it active, the
claim condition start_date ≤ D does not hold for it. -/
def fNullC2 : RegimenItem := ⟨1, 1, none, none⟩

/-- Counterexample database for the active-window claim: one entry, one
null-start formulation, one taken intake for it. -/
def dbC2 : DB := {
  daily_entries := [{ id := 10, patient_id := 1, date := 0 }]
  regimen_formulations := [fNullC2]
  regimen_formulation_intakes := [⟨10, some "taken", 1⟩]
}

/-- A regimen item with the closed validity interval of the claim example,
probed around d = 0: start_date = d - 3, stop_date = d + 2. -/
def itemC2 : RegimenItem := ⟨1, 1, some (-3), some 2⟩

/-- Witness database for the cycle-day fallback: the cycle log carries
cycle_day 0, the daily entry carries cycle_day 5. -/
def dbC7 : DB := {
  daily_entries := [{ id := 10, patient_id := 1, date := 0, cycle_day := some 5 }]
  cycle_logs := [{ id := 20, daily_entry_id := 10, cycle_day := some 0 }]
}

/-- The daily entry of dbC7. -/
def entryC7 : DailyEntryRow := { id := 10, patient_id := 1, date := 0, cycle_day := some 5 }

/-- The projection getCycleRange produces for dbC7: the zero cycle_day of
the log is falsy, so the entry value 5 wins. -/
def cC7 : CycleDaySummary := {
  date := 0, cycle_day := some 5, physical_symptom_keys := none,
  emotional_symptom_keys := none, bleeding_quantity := none,
  blood_color := none, blood_volume := none, clots := none, mucus := none,
  energy_physical := none, energy_mental := none, energy_emotional := none,
  energy_drive := none, overall_mood := none,
  formulation_adherence_percent := 0, treatment_adherence_percent := 0 }

/-- The row the resolver inserts on an empty database for (patient 1,
date 5). -/
def entryC5 : DailyEntryRow := { id := 0, patient_id := 1, date := 5 }

/-- The database state after that insert. -/
def dbC5 : DB := { next_id := 1, daily_entries := [entryC5] }

/-- Counterexample database for the bundle-completeness claim: the day has
no sleep blocks, no food events, no cycle log and no regimen adherence
rows, but it does have one bowel movement. -/
def dbC8 : DB := {
  daily_entries := [{ id := 10, patient_id := 1, date := 0 }]
  bowel_movements := [⟨50, 10⟩]
}

/-- Witness database for the amended bundle-completeness claim: one daily
entry and not a single sub-record of any kind. -/
def dbC8w : DB := {
  daily_entries := [{ id := 10, patient_id := 1, date := 0 }]
}

/-- The tables whose fetch results getDailyEntryBundle checks: the anchor
fetch plus the nineteen checked fetches of the Promise.all block.  The
first-stage cycle_comments fetch is issued but its error field is never
checked, so cycle_comments is deliberately not in this list. -/
def bundleCheckedTables : List String :=
  ["daily_entries", "sleep_blocks", "early_morning_entries",
   "daily_fluid_totals", "food_events", "bowel_movements", "exercise_events",
   "vital_readings", "medication_intakes", "symptom_logs", "cycle_logs",
   "regimen_formulations", "regimen_formulation_intakes",
   "regimen_treatments", "regimen_treatment_completions", "regimen_notes",
   "saved_foods", "saved_exercises", "saved_meds", "saved_symptoms"]

/-- The operation tags of the nineteen checked Promise.all fetches, in
check order. -/
def bundleCheckTags : List String :=
  ["getDailyEntryBundle - sleep_blocks", "getDailyEntryBundle - early_morning",
   "getDailyEntryBundle - fluid_totals", "getDailyEntryBundle - food_events",
   "getDailyEntryBundle - bowel_movements", "getDailyEntryBundle - exercise_events",
   "getDailyEntryBundle - vital_readings", "getDailyEntryBundle - medication_intakes",
   "getDailyEntryBundle - symptom_logs", "getDailyEntryBundle - cycle_log",
   "getDailyEntryBundle - regimen_formulations", "getDailyEntryBundle - formulation_intakes",
   "getDailyEntryBundle - regimen_treatments", "getDailyEntryBundle - treatment_completions",
   "getDailyEntryBundle - regimen_notes", "getDailyEntryBundle - saved_foods",
   "getDailyEntryBundle - saved_exercises", "getDailyEntryBundle - saved_meds",
   "getDailyEntryBundle - saved_symptoms"]

/-- Every tag the bundle assembler can abort with: the two resolver tags,
the nineteen check tags, and the second-stage cycle comments tag. -/
def bundleTags : List String :=
  ["getOrCreateDailyEntry - fetch", "getOrCreateDailyEntry - insert"] ++
    bundleCheckTags ++ ["getDailyEntryBundle - cycle_comments"]

/-- Counterexample database for the error-propagation claim: one daily
entry, no cycle log. -/
def dbC9 : DB := {
  daily_entries := [{ id := 10, patient_id := 1, date := 0 }]
}

/-- Witness database for the second-stage cycle-comments abort: one daily
entry with a cycle log, so the checked second-stage cycle_comments fetch
is issued. -/
def dbC9b : DB := {
  daily_entries := [{ id := 10, patient_id := 1, date := 0 }]
  cycle_logs := [{ id := 20, daily_entry_id := 10 }]
}

-- CONCRETE-DATA ANCHOR (witness and counterexample databases are inserted above this line)

/-! Helper lemmas shared by the claim theorems. -/

theorem adherenceRound_eq_round (t a : ℕ) (h : 0 < a) :
    adherenceRound t a = round ((t : ℚ) / (a : ℚ) * 100) := by
  have ha : ((a : ℚ)) ≠ 0 := by positivity
  have harg : (t : ℚ) / (a : ℚ) * 100 + 1 / 2
      = ((((200 * t + a : ℕ) : ℤ) : ℚ)) / (((2 * a : ℕ) : ℚ)) := by
    push_cast
    field_simp
    ring
  rw [round_eq, harg, Rat.floor_intCast_div_natCast]
  unfold adherenceRound
  rw [Int.natCast_div]

theorem roundHalfAwayFromZero_eq_round (q : ℚ) (h : 0 ≤ q) :
    roundHalfAwayFromZero q = round q := by
  rw [roundHalfAwayFromZero, if_pos h, round_eq]

theorem adherenceRound_eq_claim (t a : ℕ) (h : 0 < a) :
    adherenceRound t a = roundHalfAwayFromZero (100 * (t : ℚ) / (a : ℚ)) := by
  have hq : (0 : ℚ) ≤ 100 * (t : ℚ) / (a : ℚ) := by positivity
  rw [roundHalfAwayFromZero_eq_round _ hq, adherenceRound_eq_round t a h]
  congr 1
  ring

theorem length_filter3 {α : Type} (l : List α) (key : α → Nat) (ids : List Nat)
    (eid : Nat) (hid : ids.contains eid = true) (q : α → Bool) :
    (((l.filter (fun x => ids.contains (key x))).filter
        (fun x => key x == eid)).filter q).length
      = l.countP (fun x => (key x == eid) && q x) := by
  rw [List.filter_filter, List.filter_filter, ← List.countP_eq_length_filter]
  refine List.countP_congr ?_
  intro x _
  simp only [Bool.and_eq_true]
  constructor
  · intro hx
    exact ⟨hx.1.2, hx.1.1⟩
  · intro hx
    have hkey : key x = eid := by simpa using hx.1
    refine ⟨⟨hx.2, hx.1⟩, ?_⟩
    rw [hkey]
    exact hid

theorem find?_contains_collapse {α : Type} (l : List α) (key : α → Nat)
    (ids : List Nat) (eid : Nat) (hid : ids.contains eid = true) :
    (l.filter (fun x => ids.contains (key x))).find? (fun x => key x == eid)
      = l.find? (fun x => key x == eid) := by
  rw [List.find?_filter]
  congr 1
  funext x
  by_cases hk : (key x == eid) = true
  · have hkey : key x = eid := by simpa using hk
    have hc : key x ∈ ids := by
      rw [hkey]
      simpa using hid
    simp [hk, hc]
  · simp [hk]

theorem getDailySummaryRange_fst (db : DB) (p : Nat) (fromD toD : Int)
    (h : rangeEntries db p fromD toD ≠ []) :
    (getDailySummaryRange db p fromD toD).1
      = (rangeEntries db p fromD toD).map
          (summarizeDay
            (db.food_events.filter (fun f =>
              ((rangeEntries db p fromD toD).map (fun e => e.id)).contains f.daily_entry_id))
            (db.bowel_movements.filter (fun b =>
              ((rangeEntries db p fromD toD).map (fun e => e.id)).contains b.daily_entry_id))
            (db.exercise_events.filter (fun e =>
              ((rangeEntries db p fromD toD).map (fun x => x.id)).contains e.daily_entry_id))
            (db.cycle_logs.filter (fun c =>
              ((rangeEntries db p fromD toD).map (fun e => e.id)).contains c.daily_entry_id))
            (db.regimen_formulation_intakes.filter (fun i =>
              ((rangeEntries db p fromD toD).map (fun e => e.id)).contains i.daily_entry_id))
            (db.regimen_treatment_completions.filter (fun c =>
              ((rangeEntries db p fromD toD).map (fun e => e.id)).contains c.daily_entry_id))
            (db.regimen_formulations.filter (fun f => f.patient_id == p))
            (db.regimen_treatments.filter (fun t => t.patient_id == p))) := by
  have h2 : (rangeEntries db p fromD toD).isEmpty = false := by
    simpa [List.isEmpty_iff] using h
  simp only [getDailySummaryRange, h2, Bool.false_eq_true, if_false]

theorem getCycleRange_fst (db : DB) (p : Nat) (fromD toD : Int)
    (h : rangeEntries db p fromD toD ≠ []) :
    (getCycleRange db p fromD toD).1
      = (rangeEntries db p fromD toD).map
          (cycleSummarizeDay
            (db.cycle_logs.filter (fun c =>
              ((rangeEntries db p fromD toD).map (fun e => e.id)).contains c.daily_entry_id))
            (db.regimen_formulation_intakes.filter (fun i =>
              ((rangeEntries db p fromD toD).map (fun e => e.id)).contains i.daily_entry_id))
            (db.regimen_treatment_completions.filter (fun c =>
              ((rangeEntries db p fromD toD).map (fun e => e.id)).contains c.daily_entry_id))
            (db.regimen_formulations.filter (fun f => f.patient_id == p))
            (db.regimen_treatments.filter (fun t => t.patient_id == p))) := by
  have h2 : (rangeEntries db p fromD toD).isEmpty = false := by
    simpa [List.isEmpty_iff] using h
  simp only [getCycleRange, h2, Bool.false_eq_true, if_false]

theorem getDailySummaryRange_getElem (db : DB) (p : Nat) (fromD toD : Int)
    (i : Nat) (entry : DailyEntryRow)
    (he : (rangeEntries db p fromD toD)[i]? = some entry) :
    (getDailySummaryRange db p fromD toD).1[i]?
      = some (summarizeDay
            (db.food_events.filter (fun f =>
              ((rangeEntries db p fromD toD).map (fun e => e.id)).contains f.daily_entry_id))
            (db.bowel_movements.filter (fun b =>
              ((rangeEntries db p fromD toD).map (fun e => e.id)).contains b.daily_entry_id))
            (db.exercise_events.filter (fun e =>
              ((rangeEntries db p fromD toD).map (fun x => x.id)).contains e.daily_entry_id))
            (db.cycle_logs.filter (fun c =>
              ((rangeEntries db p fromD toD).map (fun e => e.id)).contains c.daily_entry_id))
            (db.regimen_formulation_intakes.filter (fun i =>
              ((rangeEntries db p fromD toD).map (fun e => e.id)).contains i.daily_entry_id))
            (db.regimen_treatment_completions.filter (fun c =>
              ((rangeEntries db p fromD toD).map (fun e => e.id)).contains c.daily_entry_id))
            (db.regimen_formulations.filter (fun f => f.patient_id == p))
            (db.regimen_treatments.filter (fun t => t.patient_id == p))
            entry) := by
  have hne : rangeEntries db p fromD toD ≠ [] := by
    intro h0
    rw [h0] at he
    simp at he
  rw [getDailySummaryRange_fst db p fromD toD hne, List.getElem?_map, he]
  rfl

theorem getCycleRange_getElem (db : DB) (p : Nat) (fromD toD : Int)
    (i : Nat) (entry : DailyEntryRow)
    (he : (rangeEntries db p fromD toD)[i]? = some entry) :
    (getCycleRange db p fromD toD).1[i]?
      = some (cycleSummarizeDay
            (db.cycle_logs.filter (fun c =>
              ((rangeEntries db p fromD toD).map (fun e => e.id)).contains c.daily_entry_id))
            (db.regimen_formulation_intakes.filter (fun i =>
              ((rangeEntries db p fromD toD).map (fun e => e.id)).contains i.daily_entry_id))
            (db.regimen_treatment_completions.filter (fun c =>
              ((rangeEntries db p fromD toD).map (fun e => e.id)).contains c.daily_entry_id))
            (db.regimen_formulations.filter (fun f => f.patient_id == p))
            (db.regimen_treatments.filter (fun t => t.patient_id == p))
            entry) := by
  have hne : rangeEntries db p fromD toD ≠ [] := by
    intro h0
    rw [h0] at he
    simp at he
  rw [getCycleRange_fst db p fromD toD hne, List.getElem?_map, he]
  rfl

theorem summarizeDay_form_percent (A B : List SubRecordRow) (C : List ExerciseRow)
    (D : List CycleLogRow) (E : List FormIntakeRow) (F : List TreatCompRow)
    (G H : List RegimenItem) (entry : DailyEntryRow) :
    (summarizeDay A B C D E F G H entry).formulation_adherence_percent
      = (if 0 < (G.filter (fun f => isActiveOn entry.date f)).length then
          adherenceRound
            (((E.filter (fun i => i.daily_entry_id == entry.id)).filter (fun i =>
              ((G.filter (fun f => isActiveOn entry.date f)).map (fun f => f.id)).contains
                  i.regimen_formulation_id &&
              (i.status == some "taken" || i.status == some "partial"))).length)
            ((G.filter (fun f => isActiveOn entry.date f)).length)
        else 0) := rfl

theorem summarizeDay_treat_percent (A B : List SubRecordRow) (C : List ExerciseRow)
    (D : List CycleLogRow) (E : List FormIntakeRow) (F : List TreatCompRow)
    (G H : List RegimenItem) (entry : DailyEntryRow) :
    (summarizeDay A B C D E F G H entry).treatment_adherence_percent
      = (if 0 < (H.filter (fun t => isActiveOn entry.date t)).length then
          adherenceRound
            (((F.filter (fun c => c.daily_entry_id == entry.id)).filter (fun c =>
              ((H.filter (fun t => isActiveOn entry.date t)).map (fun t => t.id)).contains
                  c.regimen_treatment_id &&
              (c.status == some "completed" || c.status == some "partial"))).length)
            ((H.filter (fun t => isActiveOn entry.date t)).length)
        else 0) := rfl

theorem cycleSummarizeDay_form_percent (D : List CycleLogRow)
    (E : List FormIntakeRow) (F : List TreatCompRow)
    (G H : List RegimenItem) (entry : DailyEntryRow) :
    (cycleSummarizeDay D E F G H entry).formulation_adherence_percent
      = (if 0 < (G.filter (fun f => isActiveOn entry.date f)).length then
          adherenceRound
            (((E.filter (fun i => i.daily_entry_id == entry.id)).filter (fun i =>
              ((G.filter (fun f => isActiveOn entry.date f)).map (fun f => f.id)).contains
                  i.regimen_formulation_id &&
              (i.status == some "taken" || i.status == some "partial"))).length)
            ((G.filter (fun f => isActiveOn entry.date f)).length)
        else 0) := rfl

theorem cycleSummarizeDay_treat_percent (D : List CycleLogRow)
    (E : List FormIntakeRow) (F : List TreatCompRow)
    (G H : List RegimenItem) (entry : DailyEntryRow) :
    (cycleSummarizeDay D E F G H entry).treatment_adherence_percent
      = (if 0 < (H.filter (fun t => isActiveOn entry.date t)).length then
          adherenceRound
            (((F.filter (fun c => c.daily_entry_id == entry.id)).filter (fun c =>
              ((H.filter (fun t => isActiveOn entry.date t)).map (fun t => t.id)).contains
                  c.regimen_treatment_id &&
              (c.status == some "completed" || c.status == some "partial"))).length)
            ((H.filter (fun t => isActiveOn entry.date t)).length)
        else 0) := rfl

theorem cycleSummarizeDay_cycle_day (D : List CycleLogRow)
    (E : List FormIntakeRow) (F : List TreatCompRow)
    (G H : List RegimenItem) (entry : DailyEntryRow) :
    (cycleSummarizeDay D E F G H entry).cycle_day
      = jsOrOpt (match D.find? (fun c => c.daily_entry_id == entry.id) with
          | some cl => cl.cycle_day
          | none => none) entry.cycle_day := rfl

theorem entryId_contains (db : DB) (p : Nat) (fromD toD : Int) (i : Nat)
    (entry : DailyEntryRow)
    (he : (rangeEntries db p fromD toD)[i]? = some entry) :
    ((rangeEntries db p fromD toD).map (fun e => e.id)).contains entry.id = true := by
  have hmem : entry ∈ rangeEntries db p fromD toD :=
    List.mem_iff_getElem?.mpr ⟨i, he⟩
  have h2 : entry.id ∈ (rangeEntries db p fromD toD).map (fun e => e.id) :=
    List.mem_map_of_mem _ hmem
  simpa using h2

/-- C1: for every day in the range, getDailySummaryRange sets
formulation_adherence_percent to round(100 × takenCount / activeCount),
using round-half-away-from-zero on the real-valued ratio, where activeCount
counts the formulation definitions of the patient active on that day and
takenCount counts the intake rows of that day whose formulation id is in the
active set and whose status is taken or partial; treatment adherence is
computed identically with status completed or partial. -/
theorem C1_adherence_formula (db : DB) (patientId : Nat) (fromDate toDate : Int)
    (i : Nat) (entry : DailyEntryRow) (s : DailySummary)
    (he : (rangeEntries db patientId fromDate toDate)[i]? = some entry)
    (hs : (getDailySummaryRange db patientId fromDate toDate).1[i]? = some s) :
    (0 < (db.regimen_formulations.filter (fun f => f.patient_id == patientId)).countP
          (fun f => isActiveOn entry.date f) →
        s.formulation_adherence_percent
          = roundHalfAwayFromZero (100 *
              ((db.regimen_formulation_intakes.countP (fun r =>
                  (r.daily_entry_id == entry.id) &&
                  ((((db.regimen_formulations.filter (fun f => f.patient_id == patientId)).filter
                      (fun f => isActiveOn entry.date f)).map (fun f => f.id)).contains
                      r.regimen_formulation_id &&
                   (r.status == some "taken" || r.status == some "partial")))) : ℚ) /
              (((db.regimen_formulations.filter (fun f => f.patient_id == patientId)).countP
                  (fun f => isActiveOn entry.date f) : ℚ)))) ∧
    (0 < (db.regimen_treatments.filter (fun t => t.patient_id == patientId)).countP
          (fun t => isActiveOn entry.date t) →
        s.treatment_adherence_percent
          = roundHalfAwayFromZero (100 *
              ((db.regimen_treatment_completions.countP (fun r =>
                  (r.daily_entry_id == entry.id) &&
                  ((((db.regimen_treatments.filter (fun t => t.patient_id == patientId)).filter
                      (fun t => isActiveOn entry.date t)).map (fun t => t.id)).contains
                      r.regimen_treatment_id &&
                   (r.status == some "completed" || r.status == some "partial")))) : ℚ) /
              (((db.regimen_treatments.filter (fun t => t.patient_id == patientId)).countP
                  (fun t => isActiveOn entry.date t) : ℚ)))) := by
  have hX := getDailySummaryRange_getElem db patientId fromDate toDate i entry he
  rw [hs] at hX
  have hsX := Option.some.inj hX
  subst hsX
  have hid := entryId_contains db patientId fromDate toDate i entry he
  constructor
  · intro hpos
    rw [List.countP_eq_length_filter] at hpos
    rw [summarizeDay_form_percent, if_pos hpos,
      length_filter3 db.regimen_formulation_intakes (fun r => r.daily_entry_id)
        ((rangeEntries db patientId fromDate toDate).map (fun e => e.id)) entry.id hid,
      adherenceRound_eq_claim _ _ hpos,
      ← List.countP_eq_length_filter]
  · intro hpos
    rw [List.countP_eq_length_filter] at hpos
    rw [summarizeDay_treat_percent, if_pos hpos,
      length_filter3 db.regimen_treatment_completions (fun r => r.daily_entry_id)
        ((rangeEntries db patientId fromDate toDate).map (fun e => e.id)) entry.id hid,
      adherenceRound_eq_claim _ _ hpos,
      ← List.countP_eq_length_filter]

/-- C1 witness: in dbC1 one taken intake of three active formulations gives
33 and two of three active treatments give 67, matching
round-half-away-from-zero of the real-valued ratios. -/
theorem C1_adherence_formula_witness :
    (rangeEntries dbC1 1 0 0)[0]? = some entryC1 ∧
    (getDailySummaryRange dbC1 1 0 0).1[0]? = some sC1 ∧
    sC1.formulation_adherence_percent
      = roundHalfAwayFromZero (100 * ((1 : ℕ) : ℚ) / ((3 : ℕ) : ℚ)) ∧
    sC1.formulation_adherence_percent = 33 ∧
    sC1.treatment_adherence_percent
      = roundHalfAwayFromZero (100 * ((2 : ℕ) : ℚ) / ((3 : ℕ) : ℚ)) ∧
    sC1.treatment_adherence_percent = 67 := by
  refine ⟨by decide, by decide, ?_, by decide, ?_, by decide⟩
  · have h := (C1_adherence_formula dbC1 1 0 0 0 entryC1 sC1
      (by decide) (by decide)).1 (by decide)
    have h1 : dbC1.regimen_formulation_intakes.countP (fun r =>
        (r.daily_entry_id == entryC1.id) &&
        ((((dbC1.regimen_formulations.filter (fun f => f.patient_id == 1)).filter
            (fun f => isActiveOn entryC1.date f)).map (fun f => f.id)).contains
            r.regimen_formulation_id &&
         (r.status == some "taken" || r.status == some "partial"))) = 1 := by decide
    have h2 : (dbC1.regimen_formulations.filter (fun f => f.patient_id == 1)).countP
        (fun f => isActiveOn entryC1.date f) = 3 := by decide
    rw [h1, h2] at h
    exact h
  · have h := (C1_adherence_formula dbC1 1 0 0 0 entryC1 sC1
      (by decide) (by decide)).2 (by decide)
    have h1 : dbC1.regimen_treatment_completions.countP (fun r =>
        (r.daily_entry_id == entryC1.id) &&
        ((((dbC1.regimen_treatments.filter (fun t => t.patient_id == 1)).filter
            (fun t => isActiveOn entryC1.date t)).map (fun t => t.id)).contains
            r.regimen_treatment_id &&
         (r.status == some "completed" || r.status == some "partial"))) = 2 := by decide
    have h2 : (dbC1.regimen_treatments.filter (fun t => t.patient_id == 1)).countP
        (fun t => isActiveOn entryC1.date t) = 3 := by decide
    rw [h1, h2] at h
    exact h

/-- C3: on a day with zero active formulations both range functions report
formulation_adherence_percent 0 (never an undefined value, never 100); the
same holds for treatments. -/
theorem C3_zero_active (db : DB) (patientId : Nat) (fromDate toDate : Int)
    (i : Nat) (entry : DailyEntryRow) (s : DailySummary) (c : CycleDaySummary)
    (he : (rangeEntries db patientId fromDate toDate)[i]? = some entry)
    (hs : (getDailySummaryRange db patientId fromDate toDate).1[i]? = some s)
    (hc : (getCycleRange db patientId fromDate toDate).1[i]? = some c) :
    ((db.regimen_formulations.filter (fun f => f.patient_id == patientId)).countP
        (fun f => isActiveOn entry.date f) = 0 →
      s.formulation_adherence_percent = 0 ∧ c.formulation_adherence_percent = 0) ∧
    ((db.regimen_treatments.filter (fun t => t.patient_id == patientId)).countP
        (fun t => isActiveOn entry.date t) = 0 →
      s.treatment_adherence_percent = 0 ∧ c.treatment_adherence_percent = 0) := by
  have hX := getDailySummaryRange_getElem db patientId fromDate toDate i entry he
  rw [hs] at hX
  have hsX := Option.some.inj hX
  subst hsX
  have hY := getCycleRange_getElem db patientId fromDate toDate i entry he
  rw [hc] at hY
  have hcY := Option.some.inj hY
  subst hcY
  constructor
  · intro hzero
    rw [List.countP_eq_length_filter] at hzero
    have hneg : ¬ 0 < ((db.regimen_formulations.filter
        (fun f => f.patient_id == patientId)).filter
        (fun f => isActiveOn entry.date f)).length := by omega
    exact ⟨by rw [summarizeDay_form_percent, if_neg hneg],
           by rw [cycleSummarizeDay_form_percent, if_neg hneg]⟩
  · intro hzero
    rw [List.countP_eq_length_filter] at hzero
    have hneg : ¬ 0 < ((db.regimen_treatments.filter
        (fun t => t.patient_id == patientId)).filter
        (fun t => isActiveOn entry.date t)).length := by omega
    exact ⟨by rw [summarizeDay_treat_percent, if_neg hneg],
           by rw [cycleSummarizeDay_treat_percent, if_neg hneg]⟩

/-- C3 witness: with no regimen definitions at all, the day in dbC3 reports
0 percent in both views. -/
theorem C3_zero_active_witness :
    (rangeEntries dbC3 1 0 0)[0]? = some entryC1 ∧
    (getDailySummaryRange dbC3 1 0 0).1[0]? = some sC3 ∧
    (getCycleRange dbC3 1 0 0).1[0]? = some cC3 ∧
    (dbC3.regimen_formulations.filter (fun f => f.patient_id == 1)).countP
        (fun f => isActiveOn entryC1.date f) = 0 ∧
    sC3.formulation_adherence_percent = 0 ∧
    cC3.formulation_adherence_percent = 0 ∧
    sC3.treatment_adherence_percent = 0 ∧
    cC3.treatment_adherence_percent = 0 := by
  have h := C3_zero_active dbC3 1 0 0 0 entryC1 sC3 cC3
    (by decide) (by decide) (by decide)
  have h1 := h.1 (by decide)
  have h2 := h.2 (by decide)
  exact ⟨by decide, by decide, by decide, by decide, h1.1, h1.2, h2.1, h2.2⟩

/-- C10: the adherence percentages are not bounded by 100: with exactly one
active formulation and two taken intake rows for it on one day, both range
functions report 200 percent, and likewise for treatments. -/
theorem C10_adherence_unbounded :
    ((getDailySummaryRange dbC10 1 0 0).1.map (fun s =>
        (s.formulation_adherence_percent, s.treatment_adherence_percent))
      = [(200, 200)]) ∧
    ((getCycleRange dbC10 1 0 0).1.map (fun s =>
        (s.formulation_adherence_percent, s.treatment_adherence_percent))
      = [(200, 200)]) ∧
    dbC10.regimen_formulations.countP (fun f =>
      f.patient_id == 1 && isActiveOn 0 f) = 1 ∧
    dbC10.regimen_formulation_intakes.countP (fun r =>
      r.daily_entry_id == 10 && r.status == some "taken") = 2 := by
  decide

/-- C4: for every database state, patient and range, the duplicated
adherence computations of getDailySummaryRange and getCycleRange agree on
every day: the per-day date and both percentages coincide. -/
theorem C4_duplicated_adherence_equal (db : DB) (p : Nat) (fromD toD : Int) :
    (getDailySummaryRange db p fromD toD).1.map (fun s =>
        (s.date, s.formulation_adherence_percent, s.treatment_adherence_percent))
      = (getCycleRange db p fromD toD).1.map (fun s =>
        (s.date, s.formulation_adherence_percent, s.treatment_adherence_percent)) := by
  by_cases hne : rangeEntries db p fromD toD = []
  · have h2 : (rangeEntries db p fromD toD).isEmpty = true := by
      simp [List.isEmpty_iff, hne]
    simp only [getDailySummaryRange, getCycleRange, h2, if_true]
    rfl
  · rw [getDailySummaryRange_fst db p fromD toD hne,
      getCycleRange_fst db p fromD toD hne, List.map_map, List.map_map]
    rfl

theorem isActiveOn_iff (date : Int) (f : RegimenItem) :
    isActiveOn date f = true
      ↔ ((f.start_date = none ∨ ∃ s, f.start_date = some s ∧ s ≤ date) ∧
         (f.stop_date = none ∨ ∃ s, f.stop_date = some s ∧ date ≤ s)) := by
  cases hs : f.start_date <;> cases ht : f.stop_date <;>
    simp [isActiveOn, hs, ht]

/-- C2 counterexample: a formulation whose start_date is null is counted in
activeCount (dbC2 reports one active formulation and 100 percent adherence
from its single taken intake) although the claimed condition
start_date ≤ D fails for it, so the claimed iff is false. -/
theorem C2_active_window_counterexample :
    isActiveOn 0 fNullC2 = true ∧
    claimActiveOn 0 fNullC2 = false ∧
    fNullC2.start_date = none ∧
    (dbC2.regimen_formulations.filter (fun f => f.patient_id == 1)).countP
        (fun f => isActiveOn (0 : Int) f) = 1 ∧
    ((getDailySummaryRange dbC2 1 0 0).1.map
        (fun s => s.formulation_adherence_percent) = [100]) := by
  decide

/-- C2 amended: a regimen item is counted in the active set for date D iff
(start_date is null or start_date ≤ D) and (stop_date is null or
stop_date ≥ D); in particular an item with start_date = D-3 and
stop_date = D+2 is excluded on D-4 and D+3 and included on every day of
the closed interval. -/
theorem C2_active_window_amended :
    (∀ (fs : List RegimenItem) (date : Int) (f : RegimenItem),
        f ∈ fs.filter (fun g => isActiveOn date g)
          ↔ (f ∈ fs ∧
             (f.start_date = none ∨ ∃ s, f.start_date = some s ∧ s ≤ date) ∧
             (f.stop_date = none ∨ ∃ s, f.stop_date = some s ∧ date ≤ s))) ∧
    (∀ (d : Int) (f : RegimenItem), f.start_date = some (d - 3) →
        f.stop_date = some (d + 2) →
        isActiveOn (d - 4) f = false ∧ isActiveOn (d + 3) f = false ∧
        ∀ x : Int, d - 3 ≤ x → x ≤ d + 2 → isActiveOn x f = true) := by
  constructor
  · intro fs date f
    rw [List.mem_filter, isActiveOn_iff]
  · intro d f hstart hstop
    refine ⟨?_, ?_, ?_⟩
    · simp only [isActiveOn, hstart, hstop]
      have h : ¬ (d - 3 ≤ d - 4) := by omega
      simp [h]
    · simp only [isActiveOn, hstart, hstop]
      have h : ¬ (d + 3 ≤ d + 2) := by omega
      simp [h]
    · intro x h1 h2
      simp only [isActiveOn, hstart, hstop]
      simp [h1, h2]

/-- C2 amended witness: the interval item around d = 0 is excluded on the
two probe days, included at 0, and the membership characterization holds
for it. -/
theorem C2_active_window_amended_witness :
    isActiveOn (0 - 4) itemC2 = false ∧
    isActiveOn (0 + 3) itemC2 = false ∧
    isActiveOn 0 itemC2 = true ∧
    itemC2 ∈ ([itemC2] : List RegimenItem).filter (fun g => isActiveOn 0 g) := by
  have h := C2_active_window_amended
  have h2 := h.2 0 itemC2 (by decide) (by decide)
  refine ⟨h2.1, h2.2.1, h2.2.2 0 (by decide) (by decide), ?_⟩
  exact (h.1 [itemC2] 0 itemC2).mpr
    ⟨by decide, by decide, by decide⟩

/-- C7: getCycleRange projects cycle_day from the matching cycle log with a
falsy-OR fallback to the cycle_day of the daily entry: the fallback fires
when the log is absent, when its cycle_day is null, and also when its
cycle_day is 0. -/
theorem C7_cycle_day_fallback (db : DB) (patientId : Nat) (fromDate toDate : Int)
    (i : Nat) (entry : DailyEntryRow) (c : CycleDaySummary)
    (he : (rangeEntries db patientId fromDate toDate)[i]? = some entry)
    (hc : (getCycleRange db patientId fromDate toDate).1[i]? = some c) :
    (c.cycle_day = (match db.cycle_logs.find? (fun l => l.daily_entry_id == entry.id) with
      | some cl => (match cl.cycle_day with
          | some v => if v = 0 then entry.cycle_day else some v
          | none => entry.cycle_day)
      | none => entry.cycle_day)) ∧
    (∀ cl, db.cycle_logs.find? (fun l => l.daily_entry_id == entry.id) = some cl →
      cl.cycle_day = some 0 → c.cycle_day = entry.cycle_day) := by
  have hY := getCycleRange_getElem db patientId fromDate toDate i entry he
  rw [hc] at hY
  have hcY := Option.some.inj hY
  subst hcY
  have hid := entryId_contains db patientId fromDate toDate i entry he
  have hcd : (cycleSummarizeDay
      (db.cycle_logs.filter (fun l =>
        ((rangeEntries db patientId fromDate toDate).map (fun e => e.id)).contains
          l.daily_entry_id))
      (db.regimen_formulation_intakes.filter (fun r =>
        ((rangeEntries db patientId fromDate toDate).map (fun e => e.id)).contains
          r.daily_entry_id))
      (db.regimen_treatment_completions.filter (fun r =>
        ((rangeEntries db patientId fromDate toDate).map (fun e => e.id)).contains
          r.daily_entry_id))
      (db.regimen_formulations.filter (fun f => f.patient_id == patientId))
      (db.regimen_treatments.filter (fun t => t.patient_id == patientId))
      entry).cycle_day
      = (match db.cycle_logs.find? (fun l => l.daily_entry_id == entry.id) with
        | some cl => (match cl.cycle_day with
            | some v => if v = 0 then entry.cycle_day else some v
            | none => entry.cycle_day)
        | none => entry.cycle_day) := by
    rw [cycleSummarizeDay_cycle_day,
      find?_contains_collapse db.cycle_logs (fun l => l.daily_entry_id)
        ((rangeEntries db patientId fromDate toDate).map (fun e => e.id)) entry.id hid]
    cases hf : db.cycle_logs.find? (fun l => l.daily_entry_id == entry.id) with
    | none => simp [jsOrOpt]
    | some cl =>
      cases hv : cl.cycle_day with
      | none => simp [jsOrOpt, hv]
      | some v =>
        by_cases hz : v = 0
        · simp [jsOrOpt, hv, hz]
        · simp [jsOrOpt, hv, hz]
  refine ⟨hcd, ?_⟩
  intro cl hfind hzero
  rw [hcd, hfind]
  simp [hzero]

/-- C7 witness: in dbC7 the cycle log exists with cycle_day 0, and the
projected cycle_day falls back to the daily entry value 5. -/
theorem C7_cycle_day_fallback_witness :
    (rangeEntries dbC7 1 0 0)[0]? = some entryC7 ∧
    (getCycleRange dbC7 1 0 0).1[0]? = some cC7 ∧
    (∃ cl, dbC7.cycle_logs.find? (fun l => l.daily_entry_id == entryC7.id) = some cl ∧
      cl.cycle_day = some 0) ∧
    cC7.cycle_day = entryC7.cycle_day ∧
    cC7.cycle_day = some 5 := by
  have h := C7_cycle_day_fallback dbC7 1 0 0 0 entryC7 cC7 (by decide) (by decide)
  refine ⟨by decide, by decide, ⟨{ id := 20, daily_entry_id := 10, cycle_day := some 0 },
    by decide, by decide⟩, ?_, by decide⟩
  exact h.2 { id := 20, daily_entry_id := 10, cycle_day := some 0 } (by decide) (by decide)

/-- C6: a date range holding no daily entries makes both range functions
return an empty sequence right after the entry fetch: the query trace shows
only the daily_entries fetch, no sub-record fetch is issued. -/
theorem C6_empty_range_short_circuit (db : DB) (p : Nat) (fromD toD : Int)
    (h : db.daily_entries.countP (fun e => e.patient_id == p &&
        decide (fromD ≤ e.date) && decide (e.date ≤ toD)) = 0) :
    getDailySummaryRange db p fromD toD = ([], ["daily_entries"]) ∧
    getCycleRange db p fromD toD = ([], ["daily_entries"]) := by
  have hfil : db.daily_entries.filter (fun e => e.patient_id == p &&
      decide (fromD ≤ e.date) && decide (e.date ≤ toD)) = [] := by
    rw [List.countP_eq_length_filter] at h
    exact List.length_eq_zero.mp h
  have hre : rangeEntries db p fromD toD = [] := by
    rw [rangeEntries, hfil]
    rfl
  have h2 : (rangeEntries db p fromD toD).isEmpty = true := by
    simp [List.isEmpty_iff, hre]
  constructor
  · simp only [getDailySummaryRange, h2, if_true]
  · simp only [getCycleRange, h2, if_true]

/-- C6 witness: on an empty database both functions return the empty
sequence with a trace holding only the daily_entries fetch. -/
theorem C6_empty_range_short_circuit_witness :
    getDailySummaryRange {} 1 0 0 = ([], ["daily_entries"]) ∧
    getCycleRange {} 1 0 0 = ([], ["daily_entries"]) :=
  C6_empty_range_short_circuit {} 1 0 0 (by decide)

theorem find?_eq_head_filter {α : Type} (p : α → Bool) (l : List α) :
    l.find? p = (l.filter p).head? := by
  induction l with
  | nil => rfl
  | cons x xs ih =>
    cases h : p x
    · rw [List.find?_cons_of_neg _ (by simp [h]), List.filter_cons_of_neg (by simp [h]), ih]
    · rw [List.find?_cons_of_pos _ h, List.filter_cons_of_pos h]
      rfl

/-- C5: getOrCreateDailyEntry is idempotent.  Under the uniqueness
constraint on (patient_id, date): an existing row is returned unchanged
with no insert; a missing row leads to an insert of a row with only
(patient_id, date) populated, appended to the table; and a second
sequential call returns the very same row and leaves the database
unchanged, so no duplicate DailyEntry is ever created. -/
theorem C5_getOrCreate_idempotent (db : DB) (p : Nat) (d : Int)
    (huniq : db.daily_entries.countP (fun e => e.patient_id == p && e.date == d) ≤ 1) :
    (∀ e, db.daily_entries.find? (fun x => x.patient_id == p && x.date == d) = some e →
      (getOrCreateDailyEntry db [] p d).1 = .ok (e, db)) ∧
    (db.daily_entries.find? (fun x => x.patient_id == p && x.date == d) = none →
      ∃ r db2, (getOrCreateDailyEntry db [] p d).1 = .ok (r, db2) ∧
        r.patient_id = p ∧ r.date = d ∧
        r.energy_physical = none ∧ r.energy_mental = none ∧
        r.energy_emotional = none ∧ r.energy_drive = none ∧
        r.overall_mood = none ∧ r.reflection = none ∧ r.cycle_day = none ∧
        db2.daily_entries = db.daily_entries ++ [r]) ∧
    (∀ r1 db1 r2 db2,
      (getOrCreateDailyEntry db [] p d).1 = .ok (r1, db1) →
      (getOrCreateDailyEntry db1 [] p d).1 = .ok (r2, db2) →
      r2 = r1 ∧ db2 = db1) := by
  have hcontains : (([] : List String).contains "daily_entries") = false := rfl
  have hcontains2 : (([] : List String).contains "daily_entries.insert") = false := rfl
  refine ⟨?_, ?_, ?_⟩
  · intro e hfind
    rw [find?_eq_head_filter] at hfind
    rcases hfil : db.daily_entries.filter (fun x => x.patient_id == p && x.date == d) with
      _ | ⟨y, ys⟩
    · rw [hfil] at hfind
      simp at hfind
    · rw [List.countP_eq_length_filter, hfil] at huniq
      simp at huniq
      subst huniq
      rw [hfil] at hfind
      simp at hfind
      subst hfind
      simp only [getOrCreateDailyEntry, hcontains, Bool.false_eq_true, if_false, hfil]
  · intro hfind
    rw [find?_eq_head_filter] at hfind
    have hfil : db.daily_entries.filter (fun x => x.patient_id == p && x.date == d) = [] := by
      cases hf : db.daily_entries.filter (fun x => x.patient_id == p && x.date == d) with
      | nil => rfl
      | cons y ys =>
        rw [hf] at hfind
        simp at hfind
    have hany : db.daily_entries.any (fun x => x.patient_id == p && x.date == d) = false := by
      rw [List.any_eq_false]
      intro x hx
      have := List.filter_eq_nil_iff.mp hfil x hx
      simpa using this
    refine ⟨{ id := db.next_id, patient_id := p, date := d },
      { db with
        daily_entries := db.daily_entries ++
          [{ id := db.next_id, patient_id := p, date := d }]
        next_id := db.next_id + 1 }, ?_, rfl, rfl, rfl, rfl, rfl, rfl, rfl, rfl, rfl, rfl⟩
    simp only [getOrCreateDailyEntry, hcontains, hcontains2, Bool.false_eq_true, if_false,
      hfil, hany, Bool.or_false]
  · intro r1 db1 r2 db2 h1 h2
    rcases hfil : db.daily_entries.filter (fun x => x.patient_id == p && x.date == d) with
      _ | ⟨y, ys⟩
    · -- first call inserts
      have hany : db.daily_entries.any (fun x => x.patient_id == p && x.date == d) = false := by
        rw [List.any_eq_false]
        intro x hx
        have := List.filter_eq_nil_iff.mp hfil x hx
        simpa using this
      simp only [getOrCreateDailyEntry, hcontains, hcontains2, Bool.false_eq_true, if_false,
        hfil, hany, Bool.or_false, Except.ok.injEq, Prod.mk.injEq] at h1
      obtain ⟨hr1, hdb1⟩ := h1
      have hpred : (fun x : DailyEntryRow => x.patient_id == p && x.date == d)
          { id := db.next_id, patient_id := p, date := d } = true := by simp
      have hfil1 : db1.daily_entries.filter (fun x => x.patient_id == p && x.date == d)
          = [{ id := db.next_id, patient_id := p, date := d }] := by
        rw [← hdb1]
        simp only [List.filter_append, hfil, List.nil_append, List.filter_cons, hpred]
        rfl
      simp only [getOrCreateDailyEntry, hcontains, Bool.false_eq_true, if_false, hfil1,
        Except.ok.injEq, Prod.mk.injEq] at h2
      obtain ⟨hr2, hdb2⟩ := h2
      rw [← hr2, ← hr1, ← hdb2]
      exact ⟨rfl, rfl⟩
    · -- first call finds the existing row
      rw [List.countP_eq_length_filter, hfil] at huniq
      simp at huniq
      subst huniq
      simp only [getOrCreateDailyEntry, hcontains, Bool.false_eq_true, if_false, hfil,
        Except.ok.injEq, Prod.mk.injEq] at h1
      obtain ⟨hr1, hdb1⟩ := h1
      rw [← hdb1] at h2
      simp only [getOrCreateDailyEntry, hcontains, Bool.false_eq_true, if_false, hfil,
        Except.ok.injEq, Prod.mk.injEq] at h2
      obtain ⟨hr2, hdb2⟩ := h2
      rw [← hr2, ← hr1, ← hdb2, ← hdb1]
      exact ⟨rfl, rfl⟩

/-- C5 witness: starting from the empty database, the first call inserts
the anchor row for (patient 1, date 5) and the second call returns the
same row id with the database unchanged. -/
theorem C5_getOrCreate_idempotent_witness :
    (getOrCreateDailyEntry ({} : DB) [] 1 5).1 = .ok (entryC5, dbC5) ∧
    (getOrCreateDailyEntry dbC5 [] 1 5).1 = .ok (entryC5, dbC5) ∧
    dbC5.daily_entries.countP (fun e => e.patient_id == 1 && e.date == 5) = 1 := by
  refine ⟨by decide, ?_, by decide⟩
  exact (C5_getOrCreate_idempotent dbC5 1 5 (by decide)).1 entryC5 (by decide)

/-- C8 counterexample: dbC8 satisfies every hypothesis the claim lists (no
sleep blocks, no food events, no cycle log, no regimen adherence rows for
the day) yet the returned bundle has a non-empty bowelMovements list, so
the claimed conclusion that all list fields are empty fails. -/
theorem C8_bundle_counterexample :
    dbC8.sleep_blocks = [] ∧ dbC8.food_events = [] ∧ dbC8.cycle_logs = [] ∧
    dbC8.regimen_formulation_intakes = [] ∧
    dbC8.regimen_treatment_completions = [] ∧
    (getDailyEntryBundle dbC8 [] 1 0).1.isOk = true ∧
    ((getDailyEntryBundle dbC8 [] 1 0).1.toOption.map
        (fun x => x.1.bowelMovements) = some [⟨50, 10⟩]) := by
  decide

/-- C8 amended: for a day whose DailyEntry exists and has no sub-record of
any kind (no sleep block, early-morning entry, fluid totals, food event,
bowel movement, exercise event, vital reading, medication intake, symptom
log, cycle log, formulation intake, treatment completion or regimen note)
and no fetch failure, getDailyEntryBundle returns without error a bundle
whose list fields are all empty sequences and whose singular optional
fields are all absent. -/
theorem C8_bundle_completeness (db : DB) (p : Nat) (d : Int) (e : DailyEntryRow)
    (hfil : db.daily_entries.filter (fun x => x.patient_id == p && x.date == d) = [e])
    (h1 : db.sleep_blocks.filter (fun r => r.daily_entry_id == e.id) = [])
    (h2 : db.early_morning_entries.filter (fun r => r.daily_entry_id == e.id) = [])
    (h3 : db.daily_fluid_totals.filter (fun r => r.daily_entry_id == e.id) = [])
    (h4 : db.food_events.filter (fun r => r.daily_entry_id == e.id) = [])
    (h5 : db.bowel_movements.filter (fun r => r.daily_entry_id == e.id) = [])
    (h6 : db.exercise_events.filter (fun r => r.daily_entry_id == e.id) = [])
    (h7 : db.vital_readings.filter (fun r => r.daily_entry_id == e.id) = [])
    (h8 : db.medication_intakes.filter (fun r => r.daily_entry_id == e.id) = [])
    (h9 : db.symptom_logs.filter (fun r => r.daily_entry_id == e.id) = [])
    (h10 : db.cycle_logs.filter (fun r => r.daily_entry_id == e.id) = [])
    (h11 : db.regimen_formulation_intakes.filter (fun r => r.daily_entry_id == e.id) = [])
    (h12 : db.regimen_treatment_completions.filter (fun r => r.daily_entry_id == e.id) = [])
    (h13 : db.regimen_notes.filter (fun r => r.daily_entry_id == e.id) = []) :
    (getDailyEntryBundle db [] p d).1
      = .ok
        ({ dailyEntry := e
           sleepBlocks := []
           earlyMorning := none
           fluidTotals := none
           foodEvents := []
           bowelMovements := []
           exerciseEvents := []
           vitalReadings := []
           medicationIntakes := []
           symptomLogs := []
           cycleLog := none
           cycleComments := []
           regimenFormulations := db.regimen_formulations.filter (fun r => r.patient_id == p)
           formulationIntakes := []
           regimenTreatments := db.regimen_treatments.filter (fun r => r.patient_id == p)
           treatmentCompletions := []
           regimenNotes := none
           savedFoods := db.saved_foods.filter (fun r => r.patient_id == p)
           savedExercises := db.saved_exercises.filter (fun r => r.patient_id == p)
           savedMeds := db.saved_meds.filter (fun r => r.patient_id == p)
           savedSymptoms := db.saved_symptoms.filter (fun r => r.patient_id == p) },
         db) := by
  simp only [getDailyEntryBundle, getOrCreateDailyEntry, sel, selMaybe, selFirstDesc,
    hfil, h1, h2, h3, h4, h5, h6, h7, h8, h9, h10, h11, h12, h13, sortDescBy,
    List.contains_nil, Bool.false_eq_true, if_false, Option.isNone_some,
    List.find?_cons, Option.map_none, Option.getD_some]
  rfl

theorem sel_isNone_of_contains {α : Type} (fails : List String) (tbl : String)
    (rows : List α) (h : fails.contains tbl = true) :
    (sel fails tbl rows).isNone = true := by
  rw [sel, if_pos h]
  rfl

theorem selMaybe_isNone_of_contains {α : Type} (fails : List String) (tbl : String)
    (rows : List α) (h : fails.contains tbl = true) :
    (selMaybe fails tbl rows).isNone = true := by
  unfold selMaybe
  rw [if_pos h]
  rfl

theorem selFirstDesc_isNone_of_contains (fails : List String) (tbl : String)
    (rows : List EarlyMorningRow) (h : fails.contains tbl = true) :
    (selFirstDesc fails tbl rows).isNone = true := by
  rw [selFirstDesc, if_pos h]
  rfl

theorem getOrCreate_error_tag (db : DB) (fails : List String) (p : Nat) (d : Int)
    (e : String) (h : (getOrCreateDailyEntry db fails p d).1 = .error e) :
    e = "getOrCreateDailyEntry - fetch" ∨ e = "getOrCreateDailyEntry - insert" := by
  rw [getOrCreateDailyEntry] at h
  split at h
  · simp only [Except.error.injEq] at h
    exact Or.inl h.symm
  · split at h
    · simp at h
    · split at h
      · simp only [Except.error.injEq] at h
        exact Or.inr h.symm
      · simp at h

theorem mem_checkTags_mem_bundleTags {x : String} (h : x ∈ bundleCheckTags) :
    x ∈ bundleTags :=
  List.mem_append_left _ (List.mem_append_right _ h)

theorem bundle_error_tag (db : DB) (fails : List String) (p : Nat) (d : Int)
    (err : String) (herr : (getDailyEntryBundle db fails p d).1 = .error err) :
    err ∈ bundleTags := by
  simp only [getDailyEntryBundle] at herr
  split at herr
  · rename_i e tr heq
    simp only [Except.error.injEq] at herr
    subst herr
    have h1 : (getOrCreateDailyEntry db fails p d).1 = .error e := by
      rw [heq]
    rcases getOrCreate_error_tag db fails p d e h1 with h | h <;> subst h <;> decide
  · rename_i de db1 tr heq
    split at herr
    · rename_i tag heq2
      simp only [Except.error.injEq] at herr
      subst herr
      obtain ⟨pr, hfd, hpr⟩ := Option.map_eq_some'.mp heq2
      have hmem := List.mem_of_find?_eq_some hfd
      have hsnd : pr.2 ∈ bundleCheckTags := by
        have h2 := List.mem_map_of_mem (fun c : Bool × String => c.2) hmem
        exact h2
      rw [← hpr]
      exact mem_checkTags_mem_bundleTags hsnd
    · split at herr
      · split at herr
        · simp only [Except.error.injEq] at herr
          subst herr
          decide
        · simp at herr
      · simp at herr

theorem bundle_ok_no_failed_checked (db : DB) (fails : List String) (p : Nat)
    (d : Int) (b : DailyEntryBundle) (db2 : DB)
    (hok : (getDailyEntryBundle db fails p d).1 = .ok (b, db2)) :
    ∀ T, T ∈ bundleCheckedTables → fails.contains T = false := by
  intro T hT
  by_contra hcf0
  have hcf : fails.contains T = true := by
    cases hx : fails.contains T
    · exact absurd hx hcf0
    · rfl
  simp only [getDailyEntryBundle] at hok
  split at hok
  · simp at hok
  · rename_i de db1 tr heq
    split at hok
    · simp at hok
    · rename_i heq2
      have hfind := Option.map_eq_none'.mp heq2
      have hall := List.find?_eq_none.mp hfind
      simp only [List.forall_mem_cons, List.forall_mem_ne, List.not_mem_nil] at hall
      simp only [bundleCheckedTables, List.mem_cons, List.not_mem_nil, or_false] at hT
      rcases hT with rfl | rfl | rfl | rfl | rfl | rfl | rfl | rfl | rfl | rfl |
        rfl | rfl | rfl | rfl | rfl | rfl | rfl | rfl | rfl | rfl
      · rw [getOrCreateDailyEntry, if_pos hcf] at heq
        simp at heq
      · exact hall.1 (sel_isNone_of_contains fails _ _ hcf)
      · exact hall.2.1 (selFirstDesc_isNone_of_contains fails _ _ hcf)
      · exact hall.2.2.1 (selMaybe_isNone_of_contains fails _ _ hcf)
      · exact hall.2.2.2.1 (sel_isNone_of_contains fails _ _ hcf)
      · exact hall.2.2.2.2.1 (sel_isNone_of_contains fails _ _ hcf)
      · exact hall.2.2.2.2.2.1 (sel_isNone_of_contains fails _ _ hcf)
      · exact hall.2.2.2.2.2.2.1 (sel_isNone_of_contains fails _ _ hcf)
      · exact hall.2.2.2.2.2.2.2.1 (sel_isNone_of_contains fails _ _ hcf)
      · exact hall.2.2.2.2.2.2.2.2.1 (sel_isNone_of_contains fails _ _ hcf)
      · exact hall.2.2.2.2.2.2.2.2.2.1 (selMaybe_isNone_of_contains fails _ _ hcf)
      · exact hall.2.2.2.2.2.2.2.2.2.2.1 (sel_isNone_of_contains fails _ _ hcf)
      · exact hall.2.2.2.2.2.2.2.2.2.2.2.1 (sel_isNone_of_contains fails _ _ hcf)
      · exact hall.2.2.2.2.2.2.2.2.2.2.2.2.1 (sel_isNone_of_contains fails _ _ hcf)
      · exact hall.2.2.2.2.2.2.2.2.2.2.2.2.2.1 (sel_isNone_of_contains fails _ _ hcf)
      · exact hall.2.2.2.2.2.2.2.2.2.2.2.2.2.2.1 (selMaybe_isNone_of_contains fails _ _ hcf)
      · exact hall.2.2.2.2.2.2.2.2.2.2.2.2.2.2.2.1 (sel_isNone_of_contains fails _ _ hcf)
      · exact hall.2.2.2.2.2.2.2.2.2.2.2.2.2.2.2.2.1 (sel_isNone_of_contains fails _ _ hcf)
      · exact hall.2.2.2.2.2.2.2.2.2.2.2.2.2.2.2.2.2.1 (sel_isNone_of_contains fails _ _ hcf)
      · exact hall.2.2.2.2.2.2.2.2.2.2.2.2.2.2.2.2.2.2.1 (sel_isNone_of_contains fails _ _ hcf)

theorem sel_isNone_iff {α : Type} (fails : List String) (tbl : String)
    (rows : List α) :
    (sel fails tbl rows).isNone = true ↔ fails.contains tbl = true := by
  unfold sel
  cases h : fails.contains tbl <;> simp [h]

theorem sel_eq_none_iff {α : Type} (fails : List String) (tbl : String)
    (rows : List α) :
    sel fails tbl rows = none ↔ fails.contains tbl = true := by
  unfold sel
  cases h : fails.contains tbl <;> simp [h]

theorem selFirstDesc_isNone_iff (fails : List String) (tbl : String)
    (rows : List EarlyMorningRow) :
    (selFirstDesc fails tbl rows).isNone = true ↔ fails.contains tbl = true := by
  unfold selFirstDesc
  cases h : fails.contains tbl <;> simp [h]

theorem selMaybe_isNone_iff {α : Type} (fails : List String) (tbl : String)
    (rows : List α) :
    (selMaybe fails tbl rows).isNone = true
      ↔ (fails.contains tbl = true ∨ 2 ≤ rows.length) := by
  unfold selMaybe
  cases h : fails.contains tbl
  · rcases rows with _ | ⟨x, _ | ⟨y, tl⟩⟩ <;> simp [h]
  · simp [h]

theorem getOrCreate_trace (db : DB) (fails : List String) (p : Nat) (d : Int) :
    (getOrCreateDailyEntry db fails p d).2 = ["daily_entries"] ∨
    (getOrCreateDailyEntry db fails p d).2 = ["daily_entries", "daily_entries.insert"] := by
  unfold getOrCreateDailyEntry
  split
  · exact Or.inl rfl
  · split
    · exact Or.inl rfl
    · split
      · exact Or.inr rfl
      · exact Or.inr rfl

theorem getOrCreate_error_cond (db : DB) (fails : List String) (p : Nat) (d : Int)
    (e : String) (h : (getOrCreateDailyEntry db fails p d).1 = .error e) :
    (e = "getOrCreateDailyEntry - fetch" ∧ "daily_entries" ∈ fails) ∨
    (e = "getOrCreateDailyEntry - insert" ∧
      ("daily_entries.insert" ∈ fails ∨
       db.daily_entries.any (fun x => x.patient_id == p && x.date == d) = true)) := by
  rw [getOrCreateDailyEntry] at h
  split at h
  · rename_i hc
    simp only [Except.error.injEq] at h
    exact Or.inl ⟨h.symm, by simpa using hc⟩
  · split at h
    · simp at h
    · split at h
      · rename_i hc
        simp only [Except.error.injEq] at h
        rcases Bool.or_eq_true _ _ |>.mp hc with h2 | h2
        · exact Or.inr ⟨h.symm, Or.inl (by simpa using h2)⟩
        · exact Or.inr ⟨h.symm, Or.inr h2⟩
      · simp at h

theorem bundle_error_failed (db : DB) (fails : List String) (p : Nat) (d : Int)
    (err : String) (herr : (getDailyEntryBundle db fails p d).1 = .error err) :
    (err = "getOrCreateDailyEntry - fetch" ∧ "daily_entries" ∈ fails) ∨
    (err = "getOrCreateDailyEntry - insert" ∧
      ("daily_entries.insert" ∈ fails ∨
       db.daily_entries.any (fun x => x.patient_id == p && x.date == d) = true)) ∨
    (err = "getDailyEntryBundle - cycle_comments" ∧ "cycle_comments" ∈ fails) ∨
    (∃ e db1 tr, getOrCreateDailyEntry db fails p d = (.ok (e, db1), tr) ∧
      ((err = "getDailyEntryBundle - sleep_blocks" ∧ "sleep_blocks" ∈ fails) ∨
       (err = "getDailyEntryBundle - early_morning" ∧ "early_morning_entries" ∈ fails) ∨
       (err = "getDailyEntryBundle - fluid_totals" ∧
         ("daily_fluid_totals" ∈ fails ∨
          2 ≤ (db1.daily_fluid_totals.filter (fun r => r.daily_entry_id == e.id)).length)) ∨
       (err = "getDailyEntryBundle - food_events" ∧ "food_events" ∈ fails) ∨
       (err = "getDailyEntryBundle - bowel_movements" ∧ "bowel_movements" ∈ fails) ∨
       (err = "getDailyEntryBundle - exercise_events" ∧ "exercise_events" ∈ fails) ∨
       (err = "getDailyEntryBundle - vital_readings" ∧ "vital_readings" ∈ fails) ∨
       (err = "getDailyEntryBundle - medication_intakes" ∧ "medication_intakes" ∈ fails) ∨
       (err = "getDailyEntryBundle - symptom_logs" ∧ "symptom_logs" ∈ fails) ∨
       (err = "getDailyEntryBundle - cycle_log" ∧
         ("cycle_logs" ∈ fails ∨
          2 ≤ (db1.cycle_logs.filter (fun r => r.daily_entry_id == e.id)).length)) ∨
       (err = "getDailyEntryBundle - regimen_formulations" ∧ "regimen_formulations" ∈ fails) ∨
       (err = "getDailyEntryBundle - formulation_intakes" ∧ "regimen_formulation_intakes" ∈ fails) ∨
       (err = "getDailyEntryBundle - regimen_treatments" ∧ "regimen_treatments" ∈ fails) ∨
       (err = "getDailyEntryBundle - treatment_completions" ∧ "regimen_treatment_completions" ∈ fails) ∨
       (err = "getDailyEntryBundle - regimen_notes" ∧
         ("regimen_notes" ∈ fails ∨
          2 ≤ (db1.regimen_notes.filter (fun r => r.daily_entry_id == e.id)).length)) ∨
       (err = "getDailyEntryBundle - saved_foods" ∧ "saved_foods" ∈ fails) ∨
       (err = "getDailyEntryBundle - saved_exercises" ∧ "saved_exercises" ∈ fails) ∨
       (err = "getDailyEntryBundle - saved_meds" ∧ "saved_meds" ∈ fails) ∨
       (err = "getDailyEntryBundle - saved_symptoms" ∧ "saved_symptoms" ∈ fails))) := by
  simp only [getDailyEntryBundle] at herr
  split at herr
  · rename_i goe tr heq
    simp only [Except.error.injEq] at herr
    subst herr
    have h1 : (getOrCreateDailyEntry db fails p d).1 = .error goe := by rw [heq]
    rcases getOrCreate_error_cond db fails p d goe h1 with ⟨ha, hb⟩ | ⟨ha, hb⟩
    · exact Or.inl ⟨ha, hb⟩
    · exact Or.inr (Or.inl ⟨ha, hb⟩)
  · rename_i de db1 tr heq
    split at herr
    · rename_i tag heq2
      simp only [Except.error.injEq] at herr
      subst herr
      obtain ⟨pr, hfd, hpr⟩ := Option.map_eq_some'.mp heq2
      have hone := List.find?_some hfd
      have hmem := List.mem_of_find?_eq_some hfd
      refine Or.inr (Or.inr (Or.inr ⟨de, db1, tr, heq, ?_⟩))
      simp only [List.mem_cons, List.not_mem_nil, or_false] at hmem
      rcases hmem with rfl | rfl | rfl | rfl | rfl | rfl | rfl | rfl | rfl | rfl | rfl | rfl | rfl | rfl | rfl | rfl | rfl | rfl | rfl
      · exact Or.inl ⟨hpr.symm, by simpa using (sel_isNone_iff fails _ _).mp hone⟩
      · exact Or.inr (Or.inl ⟨hpr.symm, by simpa using (selFirstDesc_isNone_iff fails _ _).mp hone⟩)
      · rcases (selMaybe_isNone_iff fails _ _).mp hone with h2 | h2
        · exact Or.inr (Or.inr (Or.inl ⟨hpr.symm, Or.inl (by simpa using h2)⟩))
        · exact Or.inr (Or.inr (Or.inl ⟨hpr.symm, Or.inr h2⟩))
      · exact Or.inr (Or.inr (Or.inr (Or.inl ⟨hpr.symm, by simpa using (sel_isNone_iff fails _ _).mp hone⟩)))
      · exact Or.inr (Or.inr (Or.inr (Or.inr (Or.inl ⟨hpr.symm, by simpa using (sel_isNone_iff fails _ _).mp hone⟩))))
      · exact Or.inr (Or.inr (Or.inr (Or.inr (Or.inr (Or.inl ⟨hpr.symm, by simpa using (sel_isNone_iff fails _ _).mp hone⟩)))))
      · exact Or.inr (Or.inr (Or.inr (Or.inr (Or.inr (Or.inr (Or.inl ⟨hpr.symm, by simpa using (sel_isNone_iff fails _ _).mp hone⟩))))))
      · exact Or.inr (Or.inr (Or.inr (Or.inr (Or.inr (Or.inr (Or.inr (Or.inl ⟨hpr.symm, by simpa using (sel_isNone_iff fails _ _).mp hone⟩)))))))
      · exact Or.inr (Or.inr (Or.inr (Or.inr (Or.inr (Or.inr (Or.inr (Or.inr (Or.inl ⟨hpr.symm, by simpa using (sel_isNone_iff fails _ _).mp hone⟩))))))))
      · rcases (selMaybe_isNone_iff fails _ _).mp hone with h2 | h2
        · exact Or.inr (Or.inr (Or.inr (Or.inr (Or.inr (Or.inr (Or.inr (Or.inr (Or.inr (Or.inl ⟨hpr.symm, Or.inl (by simpa using h2)⟩)))))))))
        · exact Or.inr (Or.inr (Or.inr (Or.inr (Or.inr (Or.inr (Or.inr (Or.inr (Or.inr (Or.inl ⟨hpr.symm, Or.inr h2⟩)))))))))
      · exact Or.inr (Or.inr (Or.inr (Or.inr (Or.inr (Or.inr (Or.inr (Or.inr (Or.inr (Or.inr (Or.inl ⟨hpr.symm, by simpa using (sel_isNone_iff fails _ _).mp hone⟩))))))))))
      · exact Or.inr (Or.inr (Or.inr (Or.inr (Or.inr (Or.inr (Or.inr (Or.inr (Or.inr (Or.inr (Or.inr (Or.inl ⟨hpr.symm, by simpa using (sel_isNone_iff fails _ _).mp hone⟩)))))))))))
      · exact Or.inr (Or.inr (Or.inr (Or.inr (Or.inr (Or.inr (Or.inr (Or.inr (Or.inr (Or.inr (Or.inr (Or.inr (Or.inl ⟨hpr.symm, by simpa using (sel_isNone_iff fails _ _).mp hone⟩))))))))))))
      · exact Or.inr (Or.inr (Or.inr (Or.inr (Or.inr (Or.inr (Or.inr (Or.inr (Or.inr (Or.inr (Or.inr (Or.inr (Or.inr (Or.inl ⟨hpr.symm, by simpa using (sel_isNone_iff fails _ _).mp hone⟩)))))))))))))
      · rcases (selMaybe_isNone_iff fails _ _).mp hone with h2 | h2
        · exact Or.inr (Or.inr (Or.inr (Or.inr (Or.inr (Or.inr (Or.inr (Or.inr (Or.inr (Or.inr (Or.inr (Or.inr (Or.inr (Or.inr (Or.inl ⟨hpr.symm, Or.inl (by simpa using h2)⟩))))))))))))))
        · exact Or.inr (Or.inr (Or.inr (Or.inr (Or.inr (Or.inr (Or.inr (Or.inr (Or.inr (Or.inr (Or.inr (Or.inr (Or.inr (Or.inr (Or.inl ⟨hpr.symm, Or.inr h2⟩))))))))))))))
      · exact Or.inr (Or.inr (Or.inr (Or.inr (Or.inr (Or.inr (Or.inr (Or.inr (Or.inr (Or.inr (Or.inr (Or.inr (Or.inr (Or.inr (Or.inr (Or.inl ⟨hpr.symm, by simpa using (sel_isNone_iff fails _ _).mp hone⟩)))))))))))))))
      · exact Or.inr (Or.inr (Or.inr (Or.inr (Or.inr (Or.inr (Or.inr (Or.inr (Or.inr (Or.inr (Or.inr (Or.inr (Or.inr (Or.inr (Or.inr (Or.inr (Or.inl ⟨hpr.symm, by simpa using (sel_isNone_iff fails _ _).mp hone⟩))))))))))))))))
      · exact Or.inr (Or.inr (Or.inr (Or.inr (Or.inr (Or.inr (Or.inr (Or.inr (Or.inr (Or.inr (Or.inr (Or.inr (Or.inr (Or.inr (Or.inr (Or.inr (Or.inr (Or.inl ⟨hpr.symm, by simpa using (sel_isNone_iff fails _ _).mp hone⟩)))))))))))))))))
      · exact Or.inr (Or.inr (Or.inr (Or.inr (Or.inr (Or.inr (Or.inr (Or.inr (Or.inr (Or.inr (Or.inr (Or.inr (Or.inr (Or.inr (Or.inr (Or.inr (Or.inr (Or.inr (⟨hpr.symm, by simpa using (sel_isNone_iff fails _ _).mp hone⟩))))))))))))))))))
    · split at herr
      · split at herr
        · rename_i heq3
          simp only [Except.error.injEq] at herr
          subst herr
          exact Or.inr (Or.inr (Or.inl ⟨rfl,
            by simpa using (sel_eq_none_iff fails _ _).mp heq3⟩))
        · simp at herr
      · simp at herr

/-- C9 counterexample: the first-stage cycle_comments fetch is issued by
getDailyEntryBundle (it appears in the query trace), yet when that fetch
fails the bundle assembly does not abort: with the cycle_comments table
failing and no cycle log present, the call still returns a complete bundle,
so not every failing issued fetch propagates an error. -/
theorem C9_error_propagation_counterexample :
    "cycle_comments" ∈ (getDailyEntryBundle dbC9 ["cycle_comments"] 1 0).2 ∧
    (getDailyEntryBundle dbC9 ["cycle_comments"] 1 0).1.isOk = true := by
  decide

/-- C9 amended: every error the bundle assembly propagates is the tag of a
sub-fetch whose failure condition held (the resolver fetch flag, the insert
flag or a uniqueness violation, a checked Promise.all fetch that was
flagged or hit a multi-row maybeSingle, or the flagged second-stage cycle
comments fetch); a failure injected on any table whose Promise.all result
is checked aborts the whole assembly with a tagged error; and when the
checked second-stage cycle_comments fetch is issued (the query trace lists
cycle_comments twice) a cycle_comments failure aborts with its tag; no
partial bundle is ever returned on abort. -/
theorem C9_error_propagation_amended (db : DB) (fails : List String)
    (p : Nat) (d : Int) :
    (∀ err, (getDailyEntryBundle db fails p d).1 = .error err →
      (err = "getOrCreateDailyEntry - fetch" ∧ "daily_entries" ∈ fails) ∨
      (err = "getOrCreateDailyEntry - insert" ∧
        ("daily_entries.insert" ∈ fails ∨
         db.daily_entries.any (fun x => x.patient_id == p && x.date == d) = true)) ∨
      (err = "getDailyEntryBundle - cycle_comments" ∧ "cycle_comments" ∈ fails) ∨
      (∃ e db1 tr, getOrCreateDailyEntry db fails p d = (.ok (e, db1), tr) ∧
        ((err = "getDailyEntryBundle - sleep_blocks" ∧ "sleep_blocks" ∈ fails) ∨
         (err = "getDailyEntryBundle - early_morning" ∧ "early_morning_entries" ∈ fails) ∨
         (err = "getDailyEntryBundle - fluid_totals" ∧
           ("daily_fluid_totals" ∈ fails ∨
            2 ≤ (db1.daily_fluid_totals.filter (fun r => r.daily_entry_id == e.id)).length)) ∨
         (err = "getDailyEntryBundle - food_events" ∧ "food_events" ∈ fails) ∨
         (err = "getDailyEntryBundle - bowel_movements" ∧ "bowel_movements" ∈ fails) ∨
         (err = "getDailyEntryBundle - exercise_events" ∧ "exercise_events" ∈ fails) ∨
         (err = "getDailyEntryBundle - vital_readings" ∧ "vital_readings" ∈ fails) ∨
         (err = "getDailyEntryBundle - medication_intakes" ∧ "medication_intakes" ∈ fails) ∨
         (err = "getDailyEntryBundle - symptom_logs" ∧ "symptom_logs" ∈ fails) ∨
         (err = "getDailyEntryBundle - cycle_log" ∧
           ("cycle_logs" ∈ fails ∨
            2 ≤ (db1.cycle_logs.filter (fun r => r.daily_entry_id == e.id)).length)) ∨
         (err = "getDailyEntryBundle - regimen_formulations" ∧ "regimen_formulations" ∈ fails) ∨
         (err = "getDailyEntryBundle - formulation_intakes" ∧ "regimen_formulation_intakes" ∈ fails) ∨
         (err = "getDailyEntryBundle - regimen_treatments" ∧ "regimen_treatments" ∈ fails) ∨
         (err = "getDailyEntryBundle - treatment_completions" ∧ "regimen_treatment_completions" ∈ fails) ∨
         (err = "getDailyEntryBundle - regimen_notes" ∧
           ("regimen_notes" ∈ fails ∨
            2 ≤ (db1.regimen_notes.filter (fun r => r.daily_entry_id == e.id)).length)) ∨
         (err = "getDailyEntryBundle - saved_foods" ∧ "saved_foods" ∈ fails) ∨
         (err = "getDailyEntryBundle - saved_exercises" ∧ "saved_exercises" ∈ fails) ∨
         (err = "getDailyEntryBundle - saved_meds" ∧ "saved_meds" ∈ fails) ∨
         (err = "getDailyEntryBundle - saved_symptoms" ∧ "saved_symptoms" ∈ fails)))) ∧
    (∀ T, T ∈ bundleCheckedTables → T ∈ fails →
      ∃ err, (getDailyEntryBundle db fails p d).1 = .error err ∧
        err ∈ bundleTags) ∧
    ("cycle_comments" ∈ fails →
      List.count "cycle_comments" (getDailyEntryBundle db fails p d).2 = 2 →
      (getDailyEntryBundle db fails p d).1
        = .error "getDailyEntryBundle - cycle_comments") := by
  refine ⟨bundle_error_failed db fails p d, ?_, ?_⟩
  · intro T hT hTf
    cases hres : (getDailyEntryBundle db fails p d).1 with
    | error e => exact ⟨e, rfl, bundle_error_tag db fails p d e hres⟩
    | ok v =>
      exfalso
      have hnone := bundle_ok_no_failed_checked db fails p d v.1 v.2
        (by rw [hres]) T hT
      have hcf : fails.contains T = true := by simpa using hTf
      rw [hnone] at hcf
      exact Bool.false_ne_true hcf
  · intro hcf
    have hcf2 : fails.contains "cycle_comments" = true := by simpa using hcf
    have htr := getOrCreate_trace db fails p d
    simp only [getDailyEntryBundle]
    split
    · rename_i goe tr heq
      intro hcount
      exfalso
      have htr2 : tr = (getOrCreateDailyEntry db fails p d).2 := by rw [heq]
      rcases htr with h | h <;> rw [htr2, h] at hcount <;>
        simp [List.count_cons] at hcount
    · rename_i de db1 tr heq
      have htr2 : tr = (getOrCreateDailyEntry db fails p d).2 := by rw [heq]
      split
      · intro hcount
        exfalso
        rcases htr with h | h <;> rw [htr2, h] at hcount <;>
          simp [List.count_cons] at hcount
      · split
        · split
          · intro _
            rfl
          · rename_i heq3
            intro _
            exfalso
            unfold sel at heq3
            rw [if_pos hcf2] at heq3
            simp at heq3
        · intro hcount
          exfalso
          rcases htr with h | h <;> rw [htr2, h] at hcount <;>
            simp [List.count_cons] at hcount

/-- C9 amended witness: with the food_events fetch failing on dbC9 the
bundle aborts with the tag naming that sub-fetch, and with the
cycle_comments fetch failing on dbC9b (whose day has a cycle log, so the
second-stage fetch is issued and the trace lists cycle_comments twice) the
bundle aborts with the cycle comments tag. -/
theorem C9_error_propagation_amended_witness :
    "food_events" ∈ bundleCheckedTables ∧
    "food_events" ∈ (["food_events"] : List String) ∧
    (getDailyEntryBundle dbC9 ["food_events"] 1 0).1
      = .error "getDailyEntryBundle - food_events" ∧
    "getDailyEntryBundle - food_events" ∈ bundleTags ∧
    "cycle_comments" ∈ (["cycle_comments"] : List String) ∧
    List.count "cycle_comments"
      (getDailyEntryBundle dbC9b ["cycle_comments"] 1 0).2 = 2 ∧
    (getDailyEntryBundle dbC9b ["cycle_comments"] 1 0).1
      = .error "getDailyEntryBundle - cycle_comments" := by
  obtain ⟨err, herr, hmem⟩ :=
    (C9_error_propagation_amended dbC9 ["food_events"] 1 0).2.1
      "food_events" (by decide) (by decide)
  have h3 := (C9_error_propagation_amended dbC9b ["cycle_comments"] 1 0).2.2
    (by decide) (by decide)
  exact ⟨by decide, by decide, by decide, by decide, by decide, by decide, h3⟩

/-- C8 amended witness: on dbC8w, whose single day has no sub-records at
all, the bundle returns without error with every list field empty and every
singular optional field absent. -/
theorem C8_bundle_completeness_witness :
    (getDailyEntryBundle dbC8w [] 1 0).1
      = .ok ({ dailyEntry := { id := 10, patient_id := 1, date := 0 }
               sleepBlocks := []
               earlyMorning := none
               fluidTotals := none
               foodEvents := []
               bowelMovements := []
               exerciseEvents := []
               vitalReadings := []
               medicationIntakes := []
               symptomLogs := []
               cycleLog := none
               cycleComments := []
               regimenFormulations := []
               formulationIntakes := []
               regimenTreatments := []
               treatmentCompletions := []
               regimenNotes := none
               savedFoods := []
               savedExercises := []
               savedMeds := []
               savedSymptoms := [] },
             dbC8w) :=
  C8_bundle_completeness dbC8w 1 0 { id := 10, patient_id := 1, date := 0 }
    (by decide) (by decide) (by decide) (by decide) (by decide) (by decide)
    (by decide) (by decide) (by decide) (by decide) (by decide) (by decide)
    (by decide) (by decide)
